import Mathlib

/-!
Verification development for the session-authority subsystem of the
`vercel-host-webpage` repository.

The repository contains two parallel session mechanisms plus a third variant:

* Mechanism A (`src/lib/supabase/session-manager.ts`,
  `src/scripts/004_create_user_sessions.sql`, `src/app/api/auth/heartbeat/route.ts`):
  sessions keyed by a cookie-held `session_id`, statuses `active`/`revoked`.
* Mechanism B (`src/unnamed/part_007`): sessions keyed by a localStorage
  `session_token`, statuses `active`/`terminated`/`expired`, 20-minute idle timeout.
* Mechanism C (`src/unnamed/part_006`, second document): sessions with an
  `is_active` boolean and `expires_at`/`last_activity` timestamps.

Each mechanism is embedded as a state machine over a list of rows.  Database
round trips are modelled as pure functions on the state; a possible store
fault is an explicit boolean parameter.  Timestamps are integers
(milliseconds); identities and tokens are natural numbers.  Row `id` values
(UUID primary keys in the source) are modelled by a `nextId` counter threaded
through the state, so a freshly inserted row never reuses an id.
-/

namespace SessionAuth

/-! ## Mechanism A: `session-manager.ts` + `004_create_user_sessions.sql` -/

namespace A

/-- Status column of `public.user_sessions` in `004_create_user_sessions.sql`:
`CHECK (status IN ('active', 'revoked'))`. -/
inductive Status where
  | active
  | revoked
deriving DecidableEq, Repr

/-- One row of `public.user_sessions` (mechanism A).  `device_info`,
`ip_address` and `user_agent` are diagnostic-only metadata never read by any
authority decision in the source, so they are omitted from the embedding. -/
structure Row where
  id : Nat
  userId : Nat
  sessionId : Nat
  status : Status
  createdAt : Int
  lastActivityAt : Int
  revokedAt : Option Int
deriving DecidableEq, Repr

/-- The session store (mechanism A): the `user_sessions` table plus the
id-generation source (`gen_random_uuid()` never repeats, modelled by a
counter). -/
structure State where
  rows : List Row
  nextId : Nat
deriving DecidableEq, Repr

/-- The INSERT issued by `createUserSession` (session-manager.ts lines 40-49):
a new row with `status: 'active'`, `created_at`/`last_activity_at` set to now
and no `revoked_at`. -/
def insertSession (uid sid : Nat) (now : Int) (s : State) : State :=
  { rows := s.rows ++ [⟨s.nextId, uid, sid, .active, now, now, none⟩]
    nextId := s.nextId + 1 }

/-- SQL function `public.revoke_other_sessions(p_user_id, p_current_session_id)`
(004_create_user_sessions.sql lines 146-169): one UPDATE setting
`status = 'revoked'`, `revoked_at = NOW()` on every row of the user with a
different `session_id` and `status = 'active'`; returns the affected row
count. -/
def revoke_other_sessions (uid sid : Nat) (now : Int) (s : State) : State × Nat :=
  let hit : Row → Bool := fun r =>
    decide (r.userId = uid ∧ r.sessionId ≠ sid ∧ r.status = .active)
  ({ s with rows := s.rows.map (fun r =>
      if hit r then { r with status := .revoked, revokedAt := some now } else r) },
   (s.rows.filter hit).length)

/-- Result values of `createUserSession`: `{ success, sessionId }` (the empty
failure string is modelled as `none`). -/
structure CreateResult where
  success : Bool
  sessionId : Option Nat
deriving DecidableEq, Repr

/-- Function `createUserSession` (session-manager.ts lines 32-76): INSERT the new
active row, then separately call the `revoke_other_sessions` RPC.  An insert
error (the UNIQUE constraint on `session_id`) aborts with `success: false`; a
failure of the revoke step is logged and ignored ("Don't fail the login if
revocation fails - the new session is still created"), modelled by the
`revokeFails` flag. -/
def createUserSession (uid sid : Nat) (now : Int) (revokeFails : Bool)
    (s : State) : State × CreateResult :=
  if s.rows.any (fun r => decide (r.sessionId = sid)) then
    (s, ⟨false, none⟩)
  else
    let s1 := insertSession uid sid now s
    if revokeFails then (s1, ⟨true, some sid⟩)
    else ((revoke_other_sessions uid sid now s1).1, ⟨true, some sid⟩)

/-- Rejection reasons of mechanism A's `validateSession`
(`lib/types/session` in `src/unnamed/part_008`): `'valid' | 'revoked' |
'not_found' | 'expired'`; the `'expired'` value is declared in the type but
never produced by the mechanism-A code. -/
inductive Reason where
  | valid
  | not_found
  | revoked
  | expired
deriving DecidableEq, Repr

/-- Result of mechanism A's `validateSession`. -/
structure ValidationResult where
  isValid : Bool
  reason : Reason
deriving DecidableEq, Repr

/-- Rows returned by the SELECT of `validateSession`: filter by `user_id` and
`session_id`. -/
def matchesFor (uid sid : Nat) (s : State) : List Row :=
  s.rows.filter (fun r => decide (r.userId = uid ∧ r.sessionId = sid))

/-- Function `validateSession(userId, sessionId)` (session-manager.ts lines 86-129):
SELECT `.single()` by `user_id` and `session_id`.  Any store error, a missing
row, or a non-unique match yields `reason: 'not_found'` (both the
`error || !data` branch and the catch block).  A `'revoked'` row yields
`reason: 'revoked'`; otherwise the session is reported valid, with no
inactivity check of any kind. -/
def validateSession (uid sid : Nat) (storeError : Bool) (s : State) :
    ValidationResult :=
  if storeError then ⟨false, .not_found⟩
  else
    match matchesFor uid sid s with
    | [r] => if r.status = .revoked then ⟨false, .revoked⟩ else ⟨true, .valid⟩
    | _ => ⟨false, .not_found⟩

/-- SQL function `public.update_session_activity(p_session_id)`
(004_create_user_sessions.sql lines 209-225): UPDATE `last_activity_at = NOW()`
where `session_id` matches and `status = 'active'`; returns FOUND. -/
def update_session_activity (sid : Nat) (now : Int) (s : State) : State × Bool :=
  let hit : Row → Bool := fun r => decide (r.sessionId = sid ∧ r.status = .active)
  ({ s with rows := s.rows.map (fun r =>
      if hit r then { r with lastActivityAt := now } else r) },
   s.rows.any hit)

/-- Function `revokeSession(userId, sessionId)` (session-manager.ts lines 194-220):
UPDATE `status = 'revoked'`, `revoked_at = now` where `user_id` and
`session_id` match.  Note: no filter on the current status. -/
def revokeSession (uid sid : Nat) (now : Int) (s : State) : State :=
  { s with rows := s.rows.map (fun r =>
      if decide (r.userId = uid ∧ r.sessionId = sid) then
        { r with status := .revoked, revokedAt := some now }
      else r) }

/-- Function `revokeAllUserSessions(userId)` (session-manager.ts lines 225-248):
UPDATE `status = 'revoked'`, `revoked_at = now` where `user_id` matches and
`status = 'active'`. -/
def revokeAllUserSessions (uid : Nat) (now : Int) (s : State) : State :=
  { s with rows := s.rows.map (fun r =>
      if decide (r.userId = uid ∧ r.status = .active) then
        { r with status := .revoked, revokedAt := some now }
      else r) }

/-- SQL function `public.cleanup_old_sessions(p_days_old)`
(004_create_user_sessions.sql lines 234-252): DELETE rows with
`status = 'revoked'` and `revoked_at < NOW() - interval`; returns the deleted
row count.  The cutoff instant `NOW() - p_days_old days` is passed directly. -/
def cleanup_old_sessions (cutoff : Int) (s : State) : State × Nat :=
  let hit : Row → Bool := fun r =>
    decide (r.status = .revoked) &&
      (match r.revokedAt with
       | some t => decide (t < cutoff)
       | none => false)
  ({ s with rows := s.rows.filter (fun r => !(hit r)) },
   (s.rows.filter hit).length)

/-- Responses of the heartbeat endpoint `POST /api/auth/heartbeat`
(heartbeat route, first document, lines 20-97). -/
inductive HeartbeatResponse where
  | ok (userId sessionId : Nat)
  | unauthenticated
  | noSessionId
  | invalid (reason : Reason)
deriving DecidableEq, Repr

/-- HTTP status code of each heartbeat response. -/
def HeartbeatResponse.statusCode : HeartbeatResponse → Nat
  | .ok _ _ => 200
  | .unauthenticated => 401
  | .noSessionId => 401
  | .invalid _ => 401

/-- The `revoked` flag carried by each heartbeat response body. -/
def HeartbeatResponse.revokedFlag : HeartbeatResponse → Bool
  | .ok _ _ => false
  | .unauthenticated => false
  | .noSessionId => true
  | .invalid _ => true

/-- Endpoint `POST /api/auth/heartbeat`: authenticate, read the `session_id` cookie,
call `validateSession`, and on success call `update_session_activity`
(ignoring its failure: "Don't fail the heartbeat if activity update fails").
Any invalid validation result is returned with HTTP 401 and `revoked: true`. -/
def heartbeatPOST (authOk : Bool) (uid : Nat) (cookieSessionId : Option Nat)
    (storeError : Bool) (now : Int) (s : State) : State × HeartbeatResponse :=
  if !authOk then (s, .unauthenticated)
  else
    match cookieSessionId with
    | none => (s, .noSessionId)
    | some sid =>
      let v := validateSession uid sid storeError s
      if !v.isValid then (s, .invalid v.reason)
      else ((update_session_activity sid now s).1, .ok uid sid)

/-- Response of `POST /api/auth/single-session-login` (heartbeat route file,
third document). -/
structure LoginResponse where
  status : Nat
  success : Bool
  cookieSet : Bool
deriving DecidableEq, Repr

/-- Endpoint `POST /api/auth/single-session-login`: authenticate, then
`createUserSession`; a failed session creation is logged and ignored
("Don't fail the login - session tracking is supplementary") and the
`session_id` cookie is set and success returned regardless. -/
def singleSessionLoginPOST (authOk : Bool) (uid sid : Nat) (now : Int)
    (revokeFails : Bool) (s : State) : State × LoginResponse :=
  if !authOk then (s, ⟨401, false, false⟩)
  else
    let s1 := (createUserSession uid sid now revokeFails s).1
    (s1, ⟨200, true, true⟩)

end A

/-! ## Mechanism B: `src/unnamed/part_007` (token-keyed session manager) -/

namespace B

/-- Type `SessionStatus` of part_007: `'active' | 'terminated' | 'expired'`. -/
inductive Status where
  | active
  | terminated
  | expired
deriving DecidableEq, Repr

/-- One `SessionRecord` row (part_007 lines 25-36), restricted to the fields
authority decisions read (`device_info`, `ip_address`, `user_agent` are
diagnostic only). -/
structure Row where
  id : Nat
  userId : Nat
  sessionToken : Nat
  status : Status
  lastActivityAt : Int
  terminatedAt : Option Int
deriving DecidableEq, Repr

/-- The session store for mechanism B. -/
structure State where
  rows : List Row
  nextId : Nat
deriving DecidableEq, Repr

/-- Constant `SESSION_IDLE_TIMEOUT = 20 * 60 * 1000` milliseconds (part_007 line 43). -/
def SESSION_IDLE_TIMEOUT : Int := 20 * 60 * 1000

/-- Function `isSessionExpired(lastActivity)` (part_007 lines 260-264):
`(now - lastActivityTime) >= SESSION_IDLE_TIMEOUT`. -/
def isSessionExpired (lastActivity now : Int) : Bool :=
  SESSION_IDLE_TIMEOUT ≤ now - lastActivity

/-- Rows returned by the SELECT of `getActiveSession`: filter by
`session_token` with `status = 'active'`. -/
def activeMatches (tok : Nat) (s : State) : List Row :=
  s.rows.filter (fun r => decide (r.sessionToken = tok ∧ r.status = .active))

/-- Function `getActiveSession(sessionToken)` (part_007 lines 176-201): SELECT
`.single()` by `session_token` with `status = 'active'`; zero or several
matches produce the "Session not found or inactive" error, modelled as
`none`. -/
def getActiveSession (tok : Nat) (s : State) : Option Row :=
  match activeMatches tok s with
  | [r] => some r
  | _ => none

/-- Function `updateSessionActivity(sessionToken)` (part_007 lines 206-225): UPDATE
`last_activity_at = now` where `session_token` matches and
`status = 'active'`. -/
def updateSessionActivity (tok : Nat) (now : Int) (s : State) : State :=
  { s with rows := s.rows.map (fun r =>
      if decide (r.sessionToken = tok ∧ r.status = .active) then
        { r with lastActivityAt := now }
      else r) }

/-- Function `terminateSession(sessionToken)` (part_007 lines 230-255): UPDATE
`status = 'terminated'`, `terminated_at = now` where `session_token` matches
and `status = 'active'` ("Only terminate if currently active").  An UPDATE
matching zero rows is not a store error, so the call reports success. -/
def terminateSession (tok : Nat) (now : Int) (s : State) : State × Bool :=
  ({ s with rows := s.rows.map (fun r =>
      if decide (r.sessionToken = tok ∧ r.status = .active) then
        { r with status := .terminated, terminatedAt := some now }
      else r) },
   true)

/-- Rejection reasons of part_007's `validateSession`: the reason strings
`'Session not found or terminated'` and `'Session expired due to inactivity'`
(part_007 lines 275 and 290).  There is no reason value that distinguishes a
terminated row from an unknown token. -/
inductive VReason where
  | notFoundOrTerminated
  | expiredInactivity
deriving DecidableEq, Repr

/-- Result of part_007's `validateSession`. -/
structure ValidateResult where
  valid : Bool
  reason : Option VReason
deriving DecidableEq, Repr

/-- The UPDATE inside `validateSession`'s lazy-expiry branch (part_007 lines
281-288): `status = 'expired'`, `terminated_at = now` where `session_token`
matches — with no filter on the current status. -/
def expireByToken (tok : Nat) (now : Int) (s : State) : State :=
  { s with rows := s.rows.map (fun r =>
      if decide (r.sessionToken = tok) then
        { r with status := .expired, terminatedAt := some now }
      else r) }

/-- Function `validateSession(sessionToken)` (part_007 lines 269-295): look up the
active row by token; if absent, reject with the merged not-found-or-terminated
reason; if present but idle past `SESSION_IDLE_TIMEOUT`, persist the
transition to `'expired'` and reject; otherwise report valid.  On success the
state is untouched: `last_activity_at` is NOT updated here. -/
def validateSession (tok : Nat) (now : Int) (s : State) : State × ValidateResult :=
  match getActiveSession tok s with
  | none => (s, ⟨false, some .notFoundOrTerminated⟩)
  | some r =>
    if isSessionExpired r.lastActivityAt now then
      (expireByToken tok now s, ⟨false, some .expiredInactivity⟩)
    else
      (s, ⟨true, none⟩)

/-- Modelled from the spec: the `terminate_previous_sessions` trigger.
`createSession` (part_007 line 146) relies on it ("trigger will automatically
terminate previous ones") and the setup guide references
`scripts/012_create_session_system.sql`, but that script is not in the source
tree.  Per the spec's create(): inserting a new active session "atomically
revokes every other currently-`active` Session row belonging to the same
principal_id (sets status=`revoked`, closed_at=now)"; in this mechanism's
vocabulary the closed status is `'terminated'`. -/
def terminate_previous_sessions (uid newTok : Nat) (now : Int)
    (rows : List Row) : List Row :=
  rows.map (fun r =>
    if decide (r.userId = uid ∧ r.sessionToken ≠ newTok ∧ r.status = .active) then
      { r with status := .terminated, terminatedAt := some now }
    else r)

/-- Result of part_007's `createSession`. -/
structure CreateResult where
  success : Bool
  hadPreviousSession : Bool
deriving DecidableEq, Repr

/-- Function `createSession(userId, ...)` (part_007 lines 127-171): first SELECT the
user's active sessions ("Check if there's an existing active session (to
detect conflict)"), then INSERT the new active row; the spec-modelled trigger
terminates the previous active sessions on insert.  A UNIQUE violation on
`session_token` aborts with `success: false`. -/
def createSession (uid tok : Nat) (now : Int) (s : State) : State × CreateResult :=
  let hadPrev := s.rows.any (fun r => decide (r.userId = uid ∧ r.status = .active))
  if s.rows.any (fun r => decide (r.sessionToken = tok)) then
    (s, ⟨false, hadPrev⟩)
  else
    ({ rows := terminate_previous_sessions uid tok now s.rows ++
         [⟨s.nextId, uid, tok, .active, now, none⟩]
       nextId := s.nextId + 1 },
     ⟨true, hadPrev⟩)

end B

/-! ## Mechanism C: `src/unnamed/part_006` (is_active boolean variant) -/

namespace C

/-- One `SessionRecord` row of part_006 (lines 267-278): the interface has
`created_at`, `expires_at`, `last_activity` and `is_active` — and no
`terminated_at`/`revoked_at` column of any kind. -/
structure Row where
  id : Nat
  userId : Nat
  sessionToken : Nat
  createdAt : Int
  expiresAt : Int
  lastActivity : Int
  isActive : Bool
deriving DecidableEq, Repr

/-- The closed-at observable of a mechanism-C row.  The part_006
`SessionRecord` carries no revoked/terminated timestamp column, so reading a
closure timestamp from a row of this variant always yields nothing. -/
def closedAt (_ : Row) : Option Int := none

/-- Function `deactivateSession(sessionToken)` (part_006 lines 537-556): UPDATE
`is_active = false` where `session_token` matches; no timestamp of any kind
is written. -/
def deactivateSession (tok : Nat) (rows : List Row) : List Row :=
  rows.map (fun r =>
    if decide (r.sessionToken = tok) then { r with isActive := false } else r)

end C

/-! ## Derived operation sequences and invariant predicates -/

namespace A

/-- Number of `'active'` rows a user currently holds: the count the partial
index `idx_user_sessions_user_status` ranges over. -/
def countActive (uid : Nat) (s : State) : Nat :=
  (s.rows.filter (fun r => decide (r.userId = uid ∧ r.status = .active))).length

/-- Sequential, non-overlapping `createUserSession` calls for one user against
a non-failing store, each with its fresh `session_id` and timestamp. -/
def runCreates (uid : Nat) (l : List (Nat × Int)) (s : State) : State :=
  l.foldl (fun st p => (createUserSession uid p.1 p.2 false st).1) s

/-- The two separate store statements a `createUserSession` call issues: the
INSERT of the new row and the `revoke_other_sessions` UPDATE. -/
inductive CallStep where
  | ins
  | rev
deriving DecidableEq, Repr

/-- Execute one store statement of a `createUserSession` call. -/
def execStep (uid sid : Nat) (now : Int) : CallStep → State → State
  | .ins, s => insertSession uid sid now s
  | .rev, s => (revoke_other_sessions uid sid now s).1

/-- Execute an interleaving of the store statements of two concurrent
`createUserSession` calls for the same user: `false` selects the first call's
parameters, `true` the second call's. -/
def execSchedule (uid : Nat) (a b : Nat × Int) :
    List (Bool × CallStep) → State → State
  | [], s => s
  | (w, st) :: rest, s =>
      execSchedule uid a b rest
        (execStep uid (if w then b.1 else a.1) (if w then b.2 else a.2) st s)

/-- All interleavings of two `createUserSession` calls that respect each
call's internal order (INSERT before its `revoke_other_sessions`). -/
def schedules : List (List (Bool × CallStep)) :=
  [[(false, .ins), (false, .rev), (true, .ins), (true, .rev)],
   [(false, .ins), (true, .ins), (false, .rev), (true, .rev)],
   [(false, .ins), (true, .ins), (true, .rev), (false, .rev)],
   [(true, .ins), (false, .ins), (false, .rev), (true, .rev)],
   [(true, .ins), (false, .ins), (true, .rev), (false, .rev)],
   [(true, .ins), (true, .rev), (false, .ins), (false, .rev)]]

/-- The state-mutating operations of mechanism A, for reasoning about
arbitrary operation sequences. -/
inductive Op where
  | create (uid sid : Nat) (now : Int) (revokeFails : Bool)
  | updateActivity (sid : Nat) (now : Int)
  | revoke (uid sid : Nat) (now : Int)
  | revokeAll (uid : Nat) (now : Int)
  | cleanup (cutoff : Int)
deriving DecidableEq, Repr

/-- Apply one mechanism-A operation to the store. -/
def applyOp : Op → State → State
  | .create uid sid now rf, s => (createUserSession uid sid now rf s).1
  | .updateActivity sid now, s => (update_session_activity sid now s).1
  | .revoke uid sid now, s => revokeSession uid sid now s
  | .revokeAll uid now, s => revokeAllUserSessions uid now s
  | .cleanup cutoff, s => (cleanup_old_sessions cutoff s).1

/-- Apply a sequence of mechanism-A operations. -/
def applyOps (l : List Op) (s : State) : State :=
  l.foldl (fun st op => applyOp op st) s

/-- Well-formedness of the id source: every stored row's id was produced by
the generator (ids are below the counter). -/
def IdsBounded (s : State) : Prop :=
  ∀ r ∈ s.rows, r.id < s.nextId

/-- The session row with the given id (if any) has left the `'active'`
status. -/
def IdClosed (i : Nat) (s : State) : Prop :=
  ∀ r ∈ s.rows, r.id = i → r.status ≠ .active

/-- Invariant I3 for mechanism A, as enforced by the table constraint
`valid_revoked_at` (004_create_user_sessions.sql lines 35-38): `revoked_at`
is non-null exactly on non-`'active'` rows. -/
def ClosedAtOk (s : State) : Prop :=
  ∀ r ∈ s.rows, (r.revokedAt ≠ none ↔ r.status ≠ .active)

instance (s : State) : Decidable (IdsBounded s) := by
  unfold IdsBounded; infer_instance

instance (i : Nat) (s : State) : Decidable (IdClosed i s) := by
  unfold IdClosed; infer_instance

instance (s : State) : Decidable (ClosedAtOk s) := by
  unfold ClosedAtOk; infer_instance

end A

namespace B

/-- The state-mutating operations of mechanism B, for reasoning about
arbitrary operation sequences. -/
inductive Op where
  | create (uid tok : Nat) (now : Int)
  | validate (tok : Nat) (now : Int)
  | updateActivity (tok : Nat) (now : Int)
  | terminate (tok : Nat) (now : Int)
deriving DecidableEq, Repr

/-- Apply one mechanism-B operation to the store. -/
def applyOp : Op → State → State
  | .create uid tok now, s => (createSession uid tok now s).1
  | .validate tok now, s => (validateSession tok now s).1
  | .updateActivity tok now, s => updateSessionActivity tok now s
  | .terminate tok now, s => (terminateSession tok now s).1

/-- Apply a sequence of mechanism-B operations. -/
def applyOps (l : List Op) (s : State) : State :=
  l.foldl (fun st op => applyOp op st) s

/-- Well-formedness of the id source for mechanism B. -/
def IdsBounded (s : State) : Prop :=
  ∀ r ∈ s.rows, r.id < s.nextId

/-- The session row with the given id (if any) has left the `'active'`
status. -/
def IdClosed (i : Nat) (s : State) : Prop :=
  ∀ r ∈ s.rows, r.id = i → r.status ≠ .active

/-- Stored session tokens are pairwise distinct, as enforced by the UNIQUE
constraint on `session_token`. -/
def TokensNodup (s : State) : Prop :=
  (s.rows.map Row.sessionToken).Nodup

/-- Invariant I3 for mechanism B: `terminated_at` is non-null exactly on
non-`'active'` rows. -/
def ClosedAtOk (s : State) : Prop :=
  ∀ r ∈ s.rows, (r.terminatedAt ≠ none ↔ r.status ≠ .active)

instance (s : State) : Decidable (IdsBounded s) := by
  unfold IdsBounded; infer_instance

instance (i : Nat) (s : State) : Decidable (IdClosed i s) := by
  unfold IdClosed; infer_instance

instance (s : State) : Decidable (TokensNodup s) := by
  unfold TokensNodup; infer_instance

instance (s : State) : Decidable (ClosedAtOk s) := by
  unfold ClosedAtOk; infer_instance

end B

/-! ## Concrete fixtures used to evaluate the model on specific inputs -/

/-- A mechanism-A store holding one active session (user 0, session id 1,
created at time 0). -/
def sampleA : A.State := ⟨[⟨0, 0, 1, .active, 0, 0, none⟩], 1⟩

/-- A mechanism-A store holding one old revoked session and one stale active
session. -/
def sampleA2 : A.State :=
  ⟨[⟨0, 0, 1, .revoked, 0, 0, some 0⟩, ⟨1, 0, 2, .active, 0, 0, none⟩], 2⟩

/-- The single row of `sampleB`. -/
def sampleRowB : B.Row := ⟨0, 0, 1, .active, 0, none⟩

/-- A mechanism-B store holding one active session (user 0, token 1, last
activity at time 0). -/
def sampleB : B.State := ⟨[sampleRowB], 1⟩

/-- A mechanism-C store holding one active session row. -/
def sampleC : List C.Row := [⟨0, 0, 1, 0, 100, 0, true⟩]

/-- An empty mechanism-A store. -/
def emptyA : A.State := ⟨[], 0⟩

/-- Two sequential create calls: session id 1 at time 10, then session id 2
at time 20. -/
def sampleSeq : List (Nat × Int) := [(1, 10), (2, 20)]

/-! ## Helper lemmas -/

theorem filter_map_comm {α : Type} (f : α → α) (p : α → Bool) (l : List α)
    (hp : ∀ a ∈ l, p (f a) = p a) :
    (l.map f).filter p = (l.filter p).map f := by
  rw [List.filter_map]
  congr 1
  exact List.filter_congr fun a ha => hp a ha

namespace B

theorem getActiveSession_some_elim (tok : Nat) (s : State) (r : Row)
    (h : getActiveSession tok s = some r) :
    activeMatches tok s = [r] ∧ r.sessionToken = tok ∧ r.status = .active ∧
      r ∈ s.rows := by
  unfold getActiveSession at h
  rcases hA : activeMatches tok s with _ | ⟨a, _ | ⟨b, t⟩⟩ <;> rw [hA] at h <;>
    simp at h
  subst h
  have hmem : a ∈ activeMatches tok s := by
    rw [hA]; exact List.mem_singleton_self a
  have hmem2 := List.mem_filter.mp hmem
  have hprop := of_decide_eq_true hmem2.2
  exact ⟨rfl, hprop.1, hprop.2, hmem2.1⟩

theorem getActiveSession_none_of_no_active (tok : Nat) (s : State)
    (h : ∀ r ∈ s.rows, r.sessionToken = tok → r.status ≠ .active) :
    getActiveSession tok s = none := by
  unfold getActiveSession
  have : activeMatches tok s = [] := by
    apply List.filter_eq_nil_iff.mpr
    intro r hr
    simp only [decide_eq_true_eq]
    rintro ⟨h1, h2⟩
    exact h r hr h1 h2
  rw [this]

end B

/-! ## Claim C3: lazy inactivity expiry -/

/-- Claim C3 counterexample: in part_007, a session idle past the 20-minute
threshold is rejected as expired on the first `validateSession` call, but a
second `validateSession` on the same token rejects with the merged
"Session not found or terminated" reason — not with the Expired reason the
claim requires — because the lookup filters on `status = 'active'`. -/
theorem claim_C3_counterexample :
    (B.validateSession 1 1200001 sampleB).2
      = ⟨false, some .expiredInactivity⟩ ∧
    (B.validateSession 1 1300000 (B.validateSession 1 1200001 sampleB).1).2
      = ⟨false, some .notFoundOrTerminated⟩ ∧
    (B.validateSession 1 1300000 (B.validateSession 1 1200001 sampleB).1).2.reason
      ≠ some .expiredInactivity := by
  decide

/-- Claim C3 (amended): when `validateSession` finds the active session idle
past the threshold it rejects with the expired reason and persists the
transition to `'expired'` (with `terminated_at` set) before returning; the
row still exists afterwards, but a second `validateSession` on the same token
rejects with the merged not-found-or-terminated reason (the row is not
re-created and the state is unchanged). -/
theorem claim_C3 (s : B.State) (tok : Nat) (now1 now2 : Int) (r : B.Row)
    (h : B.getActiveSession tok s = some r)
    (hexp : B.isSessionExpired r.lastActivityAt now1 = true) :
    (B.validateSession tok now1 s).2 = ⟨false, some .expiredInactivity⟩ ∧
    (∀ r2 ∈ (B.validateSession tok now1 s).1.rows, r2.sessionToken = tok →
      r2.status = .expired ∧ r2.terminatedAt = some now1) ∧
    (∃ r2 ∈ (B.validateSession tok now1 s).1.rows, r2.sessionToken = tok) ∧
    B.validateSession tok now2 (B.validateSession tok now1 s).1
      = ((B.validateSession tok now1 s).1, ⟨false, some .notFoundOrTerminated⟩) := by
  obtain ⟨hA, htok, hst, hmem⟩ := B.getActiveSession_some_elim tok s r h
  have hval : B.validateSession tok now1 s
      = (B.expireByToken tok now1 s, ⟨false, some .expiredInactivity⟩) := by
    unfold B.validateSession
    rw [h]
    simp [hexp]
  rw [hval]
  have hclosed : ∀ r2 ∈ (B.expireByToken tok now1 s).rows, r2.sessionToken = tok →
      r2.status = .expired ∧ r2.terminatedAt = some now1 := by
    intro r2 hr2 htk
    unfold B.expireByToken at hr2
    simp only [List.mem_map] at hr2
    obtain ⟨r0, hr0, hfr⟩ := hr2
    by_cases hc : r0.sessionToken = tok
    · rw [← hfr]; simp [hc]
    · rw [← hfr] at htk
      simp [hc] at htk
  refine ⟨rfl, hclosed, ?_, ?_⟩
  · refine ⟨{ r with status := .expired, terminatedAt := some now1 }, ?_, htok⟩
    unfold B.expireByToken
    simp only [List.mem_map]
    exact ⟨r, hmem, by simp [htok]⟩
  · have hnone : B.getActiveSession tok (B.expireByToken tok now1 s) = none := by
      apply B.getActiveSession_none_of_no_active
      intro r2 hr2 htk
      rw [(hclosed r2 hr2 htk).1]
      intro hcontr
      cases hcontr
    unfold B.validateSession
    rw [hnone]

/-- Claim C3 witness: the amended statement evaluated on a store holding one
active session idle since time 0, validated at times 1200001 and 1300000. -/
theorem claim_C3_witness :
    B.getActiveSession 1 sampleB = some sampleRowB ∧
    B.isSessionExpired sampleRowB.lastActivityAt 1200001 = true ∧
    ((B.validateSession 1 1200001 sampleB).2 = ⟨false, some .expiredInactivity⟩ ∧
     (∀ r2 ∈ (B.validateSession 1 1200001 sampleB).1.rows, r2.sessionToken = 1 →
       r2.status = .expired ∧ r2.terminatedAt = some 1200001) ∧
     (∃ r2 ∈ (B.validateSession 1 1200001 sampleB).1.rows, r2.sessionToken = 1) ∧
     B.validateSession 1 1300000 (B.validateSession 1 1200001 sampleB).1
       = ((B.validateSession 1 1200001 sampleB).1,
          ⟨false, some .notFoundOrTerminated⟩)) :=
  ⟨by decide, by decide,
   claim_C3 sampleB 1 1200001 1300000 sampleRowB (by decide) (by decide)⟩

/-! ## Claim C4: heartbeat on validation -/

/-- Claim C4 counterexample: part_007's `validateSession` does not touch
`last_activity_at` on success.  Two validate calls 1199999 ms apart (less
than the 20-minute = 1200000 ms threshold): the first succeeds and leaves the
store unchanged, and the second is rejected as expired — so repeated
validation within the threshold does not keep the session alive. -/
theorem claim_C4_counterexample :
    (B.validateSession 1 1199999 sampleB).2 = ⟨true, none⟩ ∧
    (B.validateSession 1 1199999 sampleB).1 = sampleB ∧
    (B.validateSession 1 2399998 (B.validateSession 1 1199999 sampleB).1).2
      = ⟨false, some .expiredInactivity⟩ := by
  decide

/-- Claim C4 (amended): a successful part_007 `validateSession` leaves the
store exactly unchanged — the heartbeat is the separate
`updateSessionActivity` call, which does set `last_activity_at` of the active
row to now; a validate issued within the threshold of that separate activity
update succeeds again. -/
theorem claim_C4 (s : B.State) (tok : Nat) (now now2 : Int) (r : B.Row)
    (h : B.getActiveSession tok s = some r)
    (hfresh : B.isSessionExpired r.lastActivityAt now = false) :
    B.validateSession tok now s = (s, ⟨true, none⟩) ∧
    (∀ r2 ∈ (B.updateSessionActivity tok now s).rows,
      r2.sessionToken = tok → r2.status = .active → r2.lastActivityAt = now) ∧
    (B.isSessionExpired now now2 = false →
      (B.validateSession tok now2 (B.updateSessionActivity tok now s)).2
        = ⟨true, none⟩) := by
  obtain ⟨hA, htok, hst, hmem⟩ := B.getActiveSession_some_elim tok s r h
  refine ⟨?_, ?_, ?_⟩
  · unfold B.validateSession
    rw [h]
    simp [hfresh]
  · intro r2 hr2 htk hst2
    unfold B.updateSessionActivity at hr2
    simp only [List.mem_map] at hr2
    obtain ⟨r0, hr0, hfr⟩ := hr2
    cases hd : decide (r0.sessionToken = tok ∧ r0.status = B.Status.active) with
    | true => rw [← hfr]; simp [hd]
    | false =>
      rw [← hfr] at htk hst2
      simp [hd] at htk hst2
      exact absurd ⟨htk, hst2⟩ (of_decide_eq_false hd)
  · intro hfresh2
    have hcomm : B.activeMatches tok (B.updateSessionActivity tok now s)
        = (B.activeMatches tok s).map (fun r0 =>
            if decide (r0.sessionToken = tok ∧ r0.status = B.Status.active) then
              { r0 with lastActivityAt := now }
            else r0) := by
      unfold B.activeMatches B.updateSessionActivity
      apply filter_map_comm
      intro a _
      cases hd : decide (a.sessionToken = tok ∧ a.status = B.Status.active) with
      | true => simp [hd]
      | false => simp [hd]
    have hsingle : B.activeMatches tok (B.updateSessionActivity tok now s)
        = [{ r with lastActivityAt := now }] := by
      rw [hcomm, hA]
      simp [htok, hst]
    have hga : B.getActiveSession tok (B.updateSessionActivity tok now s)
        = some { r with lastActivityAt := now } := by
      unfold B.getActiveSession
      rw [hsingle]
    unfold B.validateSession
    rw [hga]
    simp [hfresh2]

/-- Claim C4 witness: the amended statement on a store with one active
session, validated at time 5 and refreshed by the separate activity update. -/
theorem claim_C4_witness :
    B.getActiveSession 1 sampleB = some sampleRowB ∧
    B.isSessionExpired sampleRowB.lastActivityAt 5 = false ∧
    (B.validateSession 1 5 sampleB = (sampleB, ⟨true, none⟩) ∧
     (∀ r2 ∈ (B.updateSessionActivity 1 5 sampleB).rows,
       r2.sessionToken = 1 → r2.status = .active → r2.lastActivityAt = 5) ∧
     (B.isSessionExpired 5 10 = false →
       (B.validateSession 1 10 (B.updateSessionActivity 1 5 sampleB)).2
         = ⟨true, none⟩)) :=
  ⟨by decide, by decide,
   claim_C4 sampleB 1 5 10 sampleRowB (by decide) (by decide)⟩

/-! ## Claim C5: idempotent terminate -/

/-- Claim C5 counterexample: after `terminateSession`, a second call is a
no-op that still reports success, but the subsequent `validateSession` on
the terminated token returns exactly the same rejection as validating the
unknown token 99 — the merged "Session not found or terminated" reason —
so the claim's required Revoked-distinct-from-NotFound rejection does not
exist, even though the row still sits in the store with status
`'terminated'`. -/
theorem claim_C5_counterexample :
    (B.terminateSession 1 50 sampleB).2 = true ∧
    (B.terminateSession 1 60 (B.terminateSession 1 50 sampleB).1).1
      = (B.terminateSession 1 50 sampleB).1 ∧
    (B.terminateSession 1 60 (B.terminateSession 1 50 sampleB).1).2 = true ∧
    (∃ r2 ∈ (B.terminateSession 1 50 sampleB).1.rows,
      r2.sessionToken = 1 ∧ r2.status = .terminated) ∧
    (B.validateSession 1 70 (B.terminateSession 1 50 sampleB).1).2
      = ⟨false, some .notFoundOrTerminated⟩ ∧
    (B.validateSession 99 70 (B.terminateSession 1 50 sampleB).1).2
      = (B.validateSession 1 70 (B.terminateSession 1 50 sampleB).1).2 := by
  decide

/-- Claim C5 (amended): `terminateSession` transitions an active session to
`'terminated'` and reports success; a repeated call (and a call on an unknown
token) is a no-op that still reports success; the row is kept in the store,
but a subsequent `validateSession` rejects with the merged
not-found-or-terminated reason — the same rejection produced for a token that
has no row at all. -/
theorem claim_C5 (s : B.State) (tok : Nat) (t1 t2 : Int) (now : Int) (r : B.Row)
    (h : B.getActiveSession tok s = some r) :
    (B.terminateSession tok t1 s).2 = true ∧
    (B.terminateSession tok t2 (B.terminateSession tok t1 s).1).1
      = (B.terminateSession tok t1 s).1 ∧
    (B.terminateSession tok t2 (B.terminateSession tok t1 s).1).2 = true ∧
    (∃ r2 ∈ (B.terminateSession tok t1 s).1.rows,
      r2.sessionToken = tok ∧ r2.status = .terminated) ∧
    (B.validateSession tok now (B.terminateSession tok t1 s).1).2
      = ⟨false, some .notFoundOrTerminated⟩ ∧
    (∀ t : Nat, (∀ r2 ∈ s.rows, r2.sessionToken ≠ t) →
      B.terminateSession t t1 s = (s, true) ∧
      (B.validateSession t now s).2 = ⟨false, some .notFoundOrTerminated⟩) := by
  obtain ⟨hA, htok, hst, hmem⟩ := B.getActiveSession_some_elim tok s r h
  have hnoact : ∀ r2 ∈ (B.terminateSession tok t1 s).1.rows,
      r2.sessionToken = tok → r2.status ≠ B.Status.active := by
    intro r2 hr2 htk
    unfold B.terminateSession at hr2
    simp only [List.mem_map] at hr2
    obtain ⟨r0, hr0, hfr⟩ := hr2
    cases hd : decide (r0.sessionToken = tok ∧ r0.status = B.Status.active) with
    | true =>
      rw [← hfr]
      simp [hd]
    | false =>
      rw [← hfr] at htk ⊢
      simp [hd] at htk ⊢
      intro hact
      exact absurd ⟨htk, hact⟩ (of_decide_eq_false hd)
  set s1 := (B.terminateSession tok t1 s).1 with hs1
  refine ⟨rfl, ?_, rfl, ?_, ?_, ?_⟩
  · have hmap : s1.rows.map (fun r0 =>
        if decide (r0.sessionToken = tok ∧ r0.status = B.Status.active) then
          { r0 with status := B.Status.terminated, terminatedAt := some t2 }
        else r0) = s1.rows := by
      have hid : ∀ a ∈ s1.rows, (fun r0 =>
          if decide (r0.sessionToken = tok ∧ r0.status = B.Status.active) then
            { r0 with status := B.Status.terminated, terminatedAt := some t2 }
          else r0) a = id a := by
        intro a ha
        have hd : decide (a.sessionToken = tok ∧ a.status = B.Status.active) = false :=
          decide_eq_false fun hp => hnoact a ha hp.1 hp.2
        simp [hd]
      rw [List.map_eq_map_iff.mpr hid, List.map_id]
    show ({ s1 with rows := s1.rows.map _ } : B.State) = s1
    rw [hmap]
  · refine ⟨{ r with status := .terminated, terminatedAt := some t1 }, ?_, htok, rfl⟩
    rw [hs1]
    unfold B.terminateSession
    simp only [List.mem_map]
    exact ⟨r, hmem, by simp [htok, hst]⟩
  · have hnone := B.getActiveSession_none_of_no_active tok s1 hnoact
    unfold B.validateSession
    rw [hnone]
  · intro t hno
    constructor
    · unfold B.terminateSession
      have hid : ∀ a ∈ s.rows, (fun r0 =>
          if decide (r0.sessionToken = t ∧ r0.status = B.Status.active) then
            { r0 with status := B.Status.terminated, terminatedAt := some t1 }
          else r0) a = id a := by
        intro a ha
        have hd : decide (a.sessionToken = t ∧ a.status = B.Status.active) = false :=
          decide_eq_false fun hp => hno a ha hp.1
        simp [hd]
      rw [List.map_eq_map_iff.mpr hid, List.map_id]
    · have hnone := B.getActiveSession_none_of_no_active t s
        (fun r2 hr2 htk => absurd htk (hno r2 hr2))
      unfold B.validateSession
      rw [hnone]

/-- Claim C5 witness: the amended statement on a store with one active
session (token 1), terminated at time 50, re-terminated at 60, validated at
70. -/
theorem claim_C5_witness :
    B.getActiveSession 1 sampleB = some sampleRowB ∧
    ((B.terminateSession 1 50 sampleB).2 = true ∧
     (B.terminateSession 1 60 (B.terminateSession 1 50 sampleB).1).1
       = (B.terminateSession 1 50 sampleB).1 ∧
     (B.terminateSession 1 60 (B.terminateSession 1 50 sampleB).1).2 = true ∧
     (∃ r2 ∈ (B.terminateSession 1 50 sampleB).1.rows,
       r2.sessionToken = 1 ∧ r2.status = .terminated) ∧
     (B.validateSession 1 70 (B.terminateSession 1 50 sampleB).1).2
       = ⟨false, some .notFoundOrTerminated⟩ ∧
     (∀ t : Nat, (∀ r2 ∈ sampleB.rows, r2.sessionToken ≠ t) →
       B.terminateSession t 50 sampleB = (sampleB, true) ∧
       (B.validateSession t 70 sampleB).2 = ⟨false, some .notFoundOrTerminated⟩)) :=
  ⟨by decide, claim_C5 sampleB 1 50 60 70 sampleRowB (by decide)⟩

/-! ## Claim C7: store faults during validation -/

/-- Claim C7 counterexample: with a perfectly active session in the store, a
store error during validation is reported as the authority rejection
`not_found`, and the heartbeat endpoint answers HTTP 401 with
`revoked: true` — the displaced-client logout response — rather than any
infrastructure-failure outcome. -/
theorem claim_C7_counterexample :
    A.validateSession 0 1 true sampleA = ⟨false, .not_found⟩ ∧
    (A.heartbeatPOST true 0 (some 1) true 5 sampleA).2 = .invalid .not_found ∧
    (A.heartbeatPOST true 0 (some 1) true 5 sampleA).2.revokedFlag = true ∧
    (A.heartbeatPOST true 0 (some 1) true 5 sampleA).2.statusCode = 401 := by
  decide

/-- Claim C7 (amended): for every state, user and session id, a store error
during `validateSession` yields the `not_found` authority rejection (the
`error || !data` branch and the catch block both do), and the heartbeat
endpoint consequently returns HTTP 401 with `revoked: true`, forcing the
client logout; no infrastructure-distinct outcome is produced by the
validation path. -/
theorem claim_C7 (uid sid : Nat) (now : Int) (s : A.State) :
    A.validateSession uid sid true s = ⟨false, .not_found⟩ ∧
    (A.heartbeatPOST true uid (some sid) true now s).2 = .invalid .not_found ∧
    (A.heartbeatPOST true uid (some sid) true now s).2.revokedFlag = true ∧
    (A.heartbeatPOST true uid (some sid) true now s).2.statusCode = 401 := by
  have hval : A.validateSession uid sid true s = ⟨false, .not_found⟩ := rfl
  have hhb : (A.heartbeatPOST true uid (some sid) true now s).2
      = .invalid .not_found := rfl
  exact ⟨hval, hhb, by rw [hhb]; rfl, by rw [hhb]; rfl⟩

/-! ## Claim C9: batch sweep semantics -/

/-- Claim C9 counterexample: `cleanup_old_sessions` physically DELETES a
revoked row older than the cutoff (the store shrinks from two rows to one and
the returned count is the deleted count), while the stale active session —
idle since time 0, far past any threshold — is left `'active'`, not
transitioned to `'expired'`.  Mechanism A's status domain does not even
contain an `'expired'` value. -/
theorem claim_C9_counterexample :
    sampleA2.rows.length = 2 ∧
    (A.cleanup_old_sessions 100 sampleA2).1.rows.length = 1 ∧
    (A.cleanup_old_sessions 100 sampleA2).2 = 1 ∧
    (A.cleanup_old_sessions 100 sampleA2).1.rows
      = [⟨1, 0, 2, .active, 0, 0, none⟩] := by
  decide

/-- Claim C9 (amended): the in-source batch maintenance operation is a
retention janitor, not an expiry sweep: for every store and cutoff,
`cleanup_old_sessions` keeps every active row untouched, removes rows without
modifying any surviving row, returns the number of physically deleted rows,
and only deletes rows whose status is `'revoked'`. -/
theorem claim_C9 (cutoff : Int) (s : A.State) :
    (∀ r ∈ s.rows, r.status = .active →
      r ∈ (A.cleanup_old_sessions cutoff s).1.rows) ∧
    (∀ r2 ∈ (A.cleanup_old_sessions cutoff s).1.rows, r2 ∈ s.rows) ∧
    (A.cleanup_old_sessions cutoff s).2
        + (A.cleanup_old_sessions cutoff s).1.rows.length = s.rows.length ∧
    (∀ r ∈ s.rows, r ∉ (A.cleanup_old_sessions cutoff s).1.rows →
      r.status = .revoked) ∧
    (A.cleanup_old_sessions cutoff s).1.nextId = s.nextId := by
  refine ⟨?_, ?_, ?_, ?_, rfl⟩
  · intro r hr hact
    apply List.mem_filter.mpr
    refine ⟨hr, ?_⟩
    simp [hact]
  · intro r2 hr2
    exact List.mem_of_mem_filter hr2
  · exact (List.length_eq_length_filter_add _).symm
  · intro r hr hnot
    by_contra hne
    apply hnot
    apply List.mem_filter.mpr
    refine ⟨hr, ?_⟩
    cases hst : r.status with
    | active => simp [hst]
    | revoked => exact absurd hst hne

/-! ## Claim C10: success reported independently of revocation -/

/-- Claim C10: when the INSERT of the new active row succeeds but the
`revoke_other_sessions` RPC fails, `createUserSession` still returns
`success: true` with the new session id, and the store is exactly the old
rows — any previously active sessions untouched — plus the new active row;
the login route likewise responds 200/success even when session creation
itself fails. -/
theorem claim_C10 (uid sid : Nat) (now : Int) (s : A.State)
    (hfresh : ∀ r ∈ s.rows, r.sessionId ≠ sid) :
    (A.createUserSession uid sid now true s).2 = ⟨true, some sid⟩ ∧
    (A.createUserSession uid sid now true s).1.rows
      = s.rows ++ [⟨s.nextId, uid, sid, .active, now, now, none⟩] ∧
    (A.singleSessionLoginPOST true uid sid now true s).2 = ⟨200, true, true⟩ ∧
    (∀ s2 : A.State, (A.createUserSession uid sid now false s2).2.success = false →
      (A.singleSessionLoginPOST true uid sid now false s2).2 = ⟨200, true, true⟩) := by
  have hguard : s.rows.any (fun r => decide (r.sessionId = sid)) = false := by
    rw [List.any_eq_false]
    intro r hr
    simpa using hfresh r hr
  refine ⟨?_, ?_, rfl, fun s2 _ => rfl⟩
  · unfold A.createUserSession
    rw [hguard]
    rfl
  · unfold A.createUserSession
    rw [hguard]
    rfl

/-- Claim C10 witness: the statement evaluated on a store holding one active
session for user 0, creating session id 2 at time 7 with a failing revoke
step. -/
theorem claim_C10_witness :
    (∀ r ∈ sampleA.rows, r.sessionId ≠ 2) ∧
    ((A.createUserSession 0 2 7 true sampleA).2 = ⟨true, some 2⟩ ∧
     (A.createUserSession 0 2 7 true sampleA).1.rows
       = sampleA.rows ++ [⟨sampleA.nextId, 0, 2, .active, 7, 7, none⟩] ∧
     (A.singleSessionLoginPOST true 0 2 7 true sampleA).2 = ⟨200, true, true⟩ ∧
     (∀ s2 : A.State, (A.createUserSession 0 2 7 false s2).2.success = false →
       (A.singleSessionLoginPOST true 0 2 7 false s2).2 = ⟨200, true, true⟩)) :=
  ⟨by decide, claim_C10 0 2 7 sampleA (by decide)⟩

/-! ## Claim C8: closed-at consistency (invariant I3) -/

namespace A

theorem closedAtOk_map (g : Row → Row) (rows : List Row) (n m : Nat)
    (hg : ∀ r ∈ rows, (r.revokedAt ≠ none ↔ r.status ≠ Status.active) →
      ((g r).revokedAt ≠ none ↔ (g r).status ≠ Status.active))
    (h : ClosedAtOk ⟨rows, n⟩) : ClosedAtOk ⟨rows.map g, m⟩ := by
  intro r2 hr2
  have hr2m : r2 ∈ rows.map g := hr2
  simp only [List.mem_map] at hr2m
  obtain ⟨r0, hr0, rfl⟩ := hr2m
  exact hg r0 hr0 (h r0 hr0)

theorem insertSession_closedAtOk (uid sid : Nat) (now : Int) (s : State)
    (h : ClosedAtOk s) : ClosedAtOk (insertSession uid sid now s) := by
  intro r hr
  have hr2 : r ∈ s.rows ++ [⟨s.nextId, uid, sid, .active, now, now, none⟩] := hr
  rcases List.mem_append.mp hr2 with h1 | h1
  · exact h r h1
  · rcases List.mem_singleton.mp h1 with rfl
    simp

theorem revoke_other_sessions_closedAtOk (uid sid : Nat) (now : Int) (s : State)
    (h : ClosedAtOk s) : ClosedAtOk (revoke_other_sessions uid sid now s).1 := by
  show ClosedAtOk ⟨s.rows.map (fun r =>
    if decide (r.userId = uid ∧ r.sessionId ≠ sid ∧ r.status = Status.active) then
      { r with status := .revoked, revokedAt := some now }
    else r), s.nextId⟩
  apply closedAtOk_map _ _ s.nextId
  · intro r _ hiff
    cases hd : decide (r.userId = uid ∧ r.sessionId ≠ sid ∧ r.status = Status.active) with
    | true => simp [hd]
    | false => simpa [hd] using hiff
  · exact h

theorem createUserSession_closedAtOk (uid sid : Nat) (now : Int)
    (rf : Bool) (s : State) (h : ClosedAtOk s) :
    ClosedAtOk (createUserSession uid sid now rf s).1 := by
  unfold createUserSession
  by_cases hg : s.rows.any (fun r => decide (r.sessionId = sid)) = true
  · rw [hg]
    simpa using h
  · rw [Bool.not_eq_true] at hg
    rw [hg]
    cases rf with
    | true => simpa using insertSession_closedAtOk uid sid now s h
    | false =>
      simp only [Bool.false_eq_true, if_false, if_true]
      exact revoke_other_sessions_closedAtOk uid sid now _
        (insertSession_closedAtOk uid sid now s h)

theorem update_session_activity_closedAtOk (sid : Nat) (now : Int) (s : State)
    (h : ClosedAtOk s) : ClosedAtOk (update_session_activity sid now s).1 := by
  show ClosedAtOk ⟨s.rows.map (fun r =>
    if decide (r.sessionId = sid ∧ r.status = Status.active) then
      { r with lastActivityAt := now }
    else r), s.nextId⟩
  apply closedAtOk_map _ _ s.nextId
  · intro r _ hiff
    cases hd : decide (r.sessionId = sid ∧ r.status = Status.active) with
    | true => simpa [hd] using hiff
    | false => simpa [hd] using hiff
  · exact h

theorem revokeSession_closedAtOk (uid sid : Nat) (now : Int) (s : State)
    (h : ClosedAtOk s) : ClosedAtOk (revokeSession uid sid now s) := by
  show ClosedAtOk ⟨s.rows.map (fun r =>
    if decide (r.userId = uid ∧ r.sessionId = sid) then
      { r with status := .revoked, revokedAt := some now }
    else r), s.nextId⟩
  apply closedAtOk_map _ _ s.nextId
  · intro r _ hiff
    cases hd : decide (r.userId = uid ∧ r.sessionId = sid) with
    | true => simp [hd]
    | false => simpa [hd] using hiff
  · exact h

theorem revokeAllUserSessions_closedAtOk (uid : Nat) (now : Int) (s : State)
    (h : ClosedAtOk s) : ClosedAtOk (revokeAllUserSessions uid now s) := by
  show ClosedAtOk ⟨s.rows.map (fun r =>
    if decide (r.userId = uid ∧ r.status = Status.active) then
      { r with status := .revoked, revokedAt := some now }
    else r), s.nextId⟩
  apply closedAtOk_map _ _ s.nextId
  · intro r _ hiff
    cases hd : decide (r.userId = uid ∧ r.status = Status.active) with
    | true => simp [hd]
    | false => simpa [hd] using hiff
  · exact h

theorem cleanup_old_sessions_closedAtOk (cutoff : Int) (s : State)
    (h : ClosedAtOk s) : ClosedAtOk (cleanup_old_sessions cutoff s).1 := by
  intro r hr
  exact h r (List.mem_of_mem_filter hr)

theorem applyOp_closedAtOk (op : Op) (s : State) (h : ClosedAtOk s) :
    ClosedAtOk (applyOp op s) := by
  cases op with
  | create uid sid now rf => exact createUserSession_closedAtOk uid sid now rf s h
  | updateActivity sid now => exact update_session_activity_closedAtOk sid now s h
  | revoke uid sid now => exact revokeSession_closedAtOk uid sid now s h
  | revokeAll uid now => exact revokeAllUserSessions_closedAtOk uid now s h
  | cleanup cutoff => exact cleanup_old_sessions_closedAtOk cutoff s h

theorem applyOps_closedAtOk (l : List Op) (s : State) (h : ClosedAtOk s) :
    ClosedAtOk (applyOps l s) := by
  induction l generalizing s with
  | nil => exact h
  | cons op t ih => exact ih (applyOp op s) (applyOp_closedAtOk op s h)

end A

namespace B

theorem closedAtOk_mapB (g : Row → Row) (rows : List Row) (n m : Nat)
    (hg : ∀ r ∈ rows, (r.terminatedAt ≠ none ↔ r.status ≠ Status.active) →
      ((g r).terminatedAt ≠ none ↔ (g r).status ≠ Status.active))
    (h : ClosedAtOk ⟨rows, n⟩) : ClosedAtOk ⟨rows.map g, m⟩ := by
  intro r2 hr2
  have hr2m : r2 ∈ rows.map g := hr2
  simp only [List.mem_map] at hr2m
  obtain ⟨r0, hr0, rfl⟩ := hr2m
  exact hg r0 hr0 (h r0 hr0)

theorem createSession_closedAtOk (uid tok : Nat) (now : Int) (s : State)
    (h : ClosedAtOk s) : ClosedAtOk (createSession uid tok now s).1 := by
  unfold createSession
  by_cases hg : s.rows.any (fun r => decide (r.sessionToken = tok)) = true
  · rw [hg]
    simpa using h
  · rw [Bool.not_eq_true] at hg
    rw [hg]
    simp only [Bool.false_eq_true, if_false, if_true]
    intro r hr
    have hr2 : r ∈ terminate_previous_sessions uid tok now s.rows ++
        [⟨s.nextId, uid, tok, .active, now, none⟩] := hr
    rcases List.mem_append.mp hr2 with h1 | h1
    · unfold terminate_previous_sessions at h1
      simp only [List.mem_map] at h1
      obtain ⟨r0, hr0, rfl⟩ := h1
      cases hd : decide (r0.userId = uid ∧ r0.sessionToken ≠ tok ∧
          r0.status = Status.active) with
      | true => simp [hd]
      | false => simpa [hd] using h r0 hr0
    · rcases List.mem_singleton.mp h1 with rfl
      simp

theorem validateSession_closedAtOk (tok : Nat) (now : Int) (s : State)
    (h : ClosedAtOk s) : ClosedAtOk (validateSession tok now s).1 := by
  unfold validateSession
  cases hga : getActiveSession tok s with
  | none => exact h
  | some r =>
    cases hexp : isSessionExpired r.lastActivityAt now with
    | false => simpa [hexp] using h
    | true =>
      simp only [hexp, if_true]
      show ClosedAtOk ⟨s.rows.map (fun r0 =>
        if decide (r0.sessionToken = tok) then
          { r0 with status := .expired, terminatedAt := some now }
        else r0), s.nextId⟩
      apply closedAtOk_mapB _ _ s.nextId
      · intro r0 _ hiff
        cases hd : decide (r0.sessionToken = tok) with
        | true => simp [hd]
        | false => simpa [hd] using hiff
      · exact h

theorem updateSessionActivity_closedAtOk (tok : Nat) (now : Int) (s : State)
    (h : ClosedAtOk s) : ClosedAtOk (updateSessionActivity tok now s) := by
  show ClosedAtOk ⟨s.rows.map (fun r =>
    if decide (r.sessionToken = tok ∧ r.status = Status.active) then
      { r with lastActivityAt := now }
    else r), s.nextId⟩
  apply closedAtOk_mapB _ _ s.nextId
  · intro r _ hiff
    cases hd : decide (r.sessionToken = tok ∧ r.status = Status.active) with
    | true => simpa [hd] using hiff
    | false => simpa [hd] using hiff
  · exact h

theorem terminateSession_closedAtOk (tok : Nat) (now : Int) (s : State)
    (h : ClosedAtOk s) : ClosedAtOk (terminateSession tok now s).1 := by
  show ClosedAtOk ⟨s.rows.map (fun r =>
    if decide (r.sessionToken = tok ∧ r.status = Status.active) then
      { r with status := .terminated, terminatedAt := some now }
    else r), s.nextId⟩
  apply closedAtOk_mapB _ _ s.nextId
  · intro r _ hiff
    cases hd : decide (r.sessionToken = tok ∧ r.status = Status.active) with
    | true => simp [hd]
    | false => simpa [hd] using hiff
  · exact h

theorem applyOp_closedAtOkB (op : Op) (s : State) (h : ClosedAtOk s) :
    ClosedAtOk (applyOp op s) := by
  cases op with
  | create uid tok now => exact createSession_closedAtOk uid tok now s h
  | validate tok now => exact validateSession_closedAtOk tok now s h
  | updateActivity tok now => exact updateSessionActivity_closedAtOk tok now s h
  | terminate tok now => exact terminateSession_closedAtOk tok now s h

theorem applyOps_closedAtOkB (l : List Op) (s : State) (h : ClosedAtOk s) :
    ClosedAtOk (applyOps l s) := by
  induction l generalizing s with
  | nil => exact h
  | cons op t ih => exact ih (applyOp op s) (applyOp_closedAtOkB op s h)

end B

/-- Claim C8 counterexample: part_006's `deactivateSession` closes the
session (`is_active := false`) but records no closure timestamp — the
`SessionRecord` of that variant has no `revoked_at`/`terminated_at` column,
so after the operation a non-active row exists whose closed-at observable is
null, refuting the stated iff. -/
theorem claim_C8_counterexample :
    (C.deactivateSession 1 sampleC).length = 1 ∧
    (∀ r ∈ C.deactivateSession 1 sampleC,
      r.isActive = false ∧ C.closedAt r = none) := by
  decide

/-- Claim C8 (amended): for the two mechanisms that store a closure
timestamp, invariant I3 is maintained by every operation sequence: if a
mechanism-A store satisfies "revoked_at is non-null iff status is not
active", then it still does after any sequence of create / activity-update /
revoke / revoke-all / cleanup operations; likewise a mechanism-B store with
terminated_at under create / validate (with lazy expiry) / activity-update /
terminate.  The part_006 variant records no closure timestamp at all (see
the counterexample). -/
theorem claim_C8 :
    (∀ (l : List A.Op) (s : A.State), A.ClosedAtOk s →
      A.ClosedAtOk (A.applyOps l s)) ∧
    (∀ (l : List B.Op) (s : B.State), B.ClosedAtOk s →
      B.ClosedAtOk (B.applyOps l s)) :=
  ⟨A.applyOps_closedAtOk, B.applyOps_closedAtOkB⟩

/-- Claim C8 witness: both invariant statements evaluated on concrete stores
and operation sequences (a create, a revoke and a cleanup for mechanism A; a
create, a lazy-expiring validate and a terminate for mechanism B). -/
theorem claim_C8_witness :
    A.ClosedAtOk sampleA ∧ B.ClosedAtOk sampleB ∧
    A.ClosedAtOk (A.applyOps
      [.create 0 2 5 false, .revoke 0 2 9, .cleanup 100] sampleA) ∧
    B.ClosedAtOk (B.applyOps
      [.create 0 2 5, .validate 1 1300000, .terminate 2 1300001] sampleB) :=
  ⟨by decide, by decide,
   claim_C8.1 [.create 0 2 5 false, .revoke 0 2 9, .cleanup 100] sampleA
     (by decide),
   claim_C8.2 [.create 0 2 5, .validate 1 1300000, .terminate 2 1300001] sampleB
     (by decide)⟩

/-! ## Claim C6: monotonic status -/

namespace A

theorem idClosed_map (g : Row → Row) (rows : List Row) (n m i : Nat)
    (hg : ∀ r, (g r).id = r.id ∧ ((g r).status = r.status ∨ (g r).status = .revoked))
    (h : IdClosed i ⟨rows, n⟩) : IdClosed i ⟨rows.map g, m⟩ := by
  intro r2 hr2 hid
  have hr2m : r2 ∈ rows.map g := hr2
  simp only [List.mem_map] at hr2m
  obtain ⟨r0, hr0, rfl⟩ := hr2m
  rcases (hg r0).2 with hs | hs
  · rw [hs]
    exact h r0 hr0 (((hg r0).1).symm.trans hid)
  · rw [hs]
    intro hc
    cases hc

theorem insertSession_idClosed (uid sid : Nat) (now : Int) (s : State) (i : Nat)
    (hlt : i < s.nextId) (h : IdClosed i s) :
    IdClosed i (insertSession uid sid now s) := by
  intro r2 hr2 hid
  have hr2m : r2 ∈ s.rows ++ [⟨s.nextId, uid, sid, .active, now, now, none⟩] := hr2
  rcases List.mem_append.mp hr2m with h1 | h1
  · exact h r2 h1 hid
  · rcases List.mem_singleton.mp h1 with rfl
    exact absurd hid (by simpa using hlt.ne')

theorem createUserSession_idClosed (uid sid : Nat) (now : Int) (rf : Bool)
    (s : State) (i : Nat) (hlt : i < s.nextId) (h : IdClosed i s) :
    IdClosed i (createUserSession uid sid now rf s).1 := by
  unfold createUserSession
  by_cases hg : s.rows.any (fun r => decide (r.sessionId = sid)) = true
  · rw [hg]
    simpa using h
  · rw [Bool.not_eq_true] at hg
    rw [hg]
    have hins := insertSession_idClosed uid sid now s i hlt h
    cases rf with
    | true => simpa using hins
    | false =>
      simp only [Bool.false_eq_true, if_false, if_true]
      show IdClosed i ⟨(insertSession uid sid now s).rows.map (fun r =>
        if decide (r.userId = uid ∧ r.sessionId ≠ sid ∧ r.status = Status.active) then
          { r with status := .revoked, revokedAt := some now }
        else r), (insertSession uid sid now s).nextId⟩
      apply idClosed_map _ _ (insertSession uid sid now s).nextId
      · intro r
        cases hd : decide (r.userId = uid ∧ r.sessionId ≠ sid ∧
            r.status = Status.active) with
        | true => simp [hd]
        | false => simp [hd]
      · exact hins

theorem applyOp_idClosed (op : Op) (s : State) (i : Nat)
    (hlt : i < s.nextId) (h : IdClosed i s) : IdClosed i (applyOp op s) := by
  cases op with
  | create uid sid now rf => exact createUserSession_idClosed uid sid now rf s i hlt h
  | updateActivity sid now =>
    show IdClosed i ⟨s.rows.map (fun r =>
      if decide (r.sessionId = sid ∧ r.status = Status.active) then
        { r with lastActivityAt := now }
      else r), s.nextId⟩
    apply idClosed_map _ _ s.nextId
    · intro r
      cases hd : decide (r.sessionId = sid ∧ r.status = Status.active) with
      | true => simp [hd]
      | false => simp [hd]
    · exact h
  | revoke uid sid now =>
    show IdClosed i ⟨s.rows.map (fun r =>
      if decide (r.userId = uid ∧ r.sessionId = sid) then
        { r with status := .revoked, revokedAt := some now }
      else r), s.nextId⟩
    apply idClosed_map _ _ s.nextId
    · intro r
      cases hd : decide (r.userId = uid ∧ r.sessionId = sid) with
      | true => simp [hd]
      | false => simp [hd]
    · exact h
  | revokeAll uid now =>
    show IdClosed i ⟨s.rows.map (fun r =>
      if decide (r.userId = uid ∧ r.status = Status.active) then
        { r with status := .revoked, revokedAt := some now }
      else r), s.nextId⟩
    apply idClosed_map _ _ s.nextId
    · intro r
      cases hd : decide (r.userId = uid ∧ r.status = Status.active) with
      | true => simp [hd]
      | false => simp [hd]
    · exact h
  | cleanup cutoff =>
    intro r2 hr2 hid
    exact h r2 (List.mem_of_mem_filter hr2) hid

theorem applyOp_nextId_le (op : Op) (s : State) :
    s.nextId ≤ (applyOp op s).nextId := by
  cases op with
  | create uid sid now rf =>
    show s.nextId ≤ (createUserSession uid sid now rf s).1.nextId
    unfold createUserSession
    by_cases hg : s.rows.any (fun r => decide (r.sessionId = sid)) = true
    · rw [hg]
      exact Nat.le_refl _
    · rw [Bool.not_eq_true] at hg
      rw [hg]
      cases rf with
      | true => exact Nat.le_succ s.nextId
      | false =>
        simp only [Bool.false_eq_true, if_false, if_true]
        exact Nat.le_succ s.nextId
  | updateActivity sid now => exact Nat.le_refl _
  | revoke uid sid now => exact Nat.le_refl _
  | revokeAll uid now => exact Nat.le_refl _
  | cleanup cutoff => exact Nat.le_refl _

theorem applyOps_idClosed (l : List Op) (s : State) (i : Nat)
    (hlt : i < s.nextId) (h : IdClosed i s) : IdClosed i (applyOps l s) := by
  induction l generalizing s with
  | nil => exact h
  | cons op t ih =>
    exact ih (applyOp op s)
      (Nat.lt_of_lt_of_le hlt (applyOp_nextId_le op s))
      (applyOp_idClosed op s i hlt h)

end A

namespace B

theorem idClosed_mapB (g : Row → Row) (rows : List Row) (n m i : Nat)
    (hg : ∀ r, (g r).id = r.id ∧ ((g r).status = r.status ∨
      (g r).status = .terminated ∨ (g r).status = .expired))
    (h : IdClosed i ⟨rows, n⟩) : IdClosed i ⟨rows.map g, m⟩ := by
  intro r2 hr2 hid
  have hr2m : r2 ∈ rows.map g := hr2
  simp only [List.mem_map] at hr2m
  obtain ⟨r0, hr0, rfl⟩ := hr2m
  rcases (hg r0).2 with hs | hs | hs
  · rw [hs]
    exact h r0 hr0 (((hg r0).1).symm.trans hid)
  · rw [hs]
    intro hc
    cases hc
  · rw [hs]
    intro hc
    cases hc

theorem createSession_idClosed (uid tok : Nat) (now : Int) (s : State) (i : Nat)
    (hlt : i < s.nextId) (h : IdClosed i s) :
    IdClosed i (createSession uid tok now s).1 := by
  unfold createSession
  by_cases hg : s.rows.any (fun r => decide (r.sessionToken = tok)) = true
  · rw [hg]
    simpa using h
  · rw [Bool.not_eq_true] at hg
    rw [hg]
    simp only [Bool.false_eq_true, if_false, if_true]
    intro r2 hr2 hid
    have hr2m : r2 ∈ terminate_previous_sessions uid tok now s.rows ++
        [⟨s.nextId, uid, tok, .active, now, none⟩] := hr2
    rcases List.mem_append.mp hr2m with h1 | h1
    · unfold terminate_previous_sessions at h1
      simp only [List.mem_map] at h1
      obtain ⟨r0, hr0, rfl⟩ := h1
      cases hd : decide (r0.userId = uid ∧ r0.sessionToken ≠ tok ∧
          r0.status = Status.active) with
      | true =>
        simp [hd]
      | false =>
        simp only [hd, Bool.false_eq_true, if_false] at hid ⊢
        exact h r0 hr0 hid
    · rcases List.mem_singleton.mp h1 with rfl
      exact absurd hid (by simpa using hlt.ne')

theorem applyOp_idClosedB (op : Op) (s : State) (i : Nat)
    (hlt : i < s.nextId) (h : IdClosed i s) : IdClosed i (applyOp op s) := by
  cases op with
  | create uid tok now => exact createSession_idClosed uid tok now s i hlt h
  | validate tok now =>
    show IdClosed i (validateSession tok now s).1
    unfold validateSession
    cases hga : getActiveSession tok s with
    | none => exact h
    | some r =>
      cases hexp : isSessionExpired r.lastActivityAt now with
      | false => simpa [hexp] using h
      | true =>
        simp only [hexp, if_true]
        show IdClosed i ⟨s.rows.map (fun r0 =>
          if decide (r0.sessionToken = tok) then
            { r0 with status := .expired, terminatedAt := some now }
          else r0), s.nextId⟩
        apply idClosed_mapB _ _ s.nextId
        · intro r0
          cases hd : decide (r0.sessionToken = tok) with
          | true => simp [hd]
          | false => simp [hd]
        · exact h
  | updateActivity tok now =>
    show IdClosed i ⟨s.rows.map (fun r =>
      if decide (r.sessionToken = tok ∧ r.status = Status.active) then
        { r with lastActivityAt := now }
      else r), s.nextId⟩
    apply idClosed_mapB _ _ s.nextId
    · intro r
      cases hd : decide (r.sessionToken = tok ∧ r.status = Status.active) with
      | true => simp [hd]
      | false => simp [hd]
    · exact h
  | terminate tok now =>
    show IdClosed i ⟨s.rows.map (fun r =>
      if decide (r.sessionToken = tok ∧ r.status = Status.active) then
        { r with status := .terminated, terminatedAt := some now }
      else r), s.nextId⟩
    apply idClosed_mapB _ _ s.nextId
    · intro r
      cases hd : decide (r.sessionToken = tok ∧ r.status = Status.active) with
      | true => simp [hd]
      | false => simp [hd]
    · exact h

theorem applyOp_nextId_leB (op : Op) (s : State) :
    s.nextId ≤ (applyOp op s).nextId := by
  cases op with
  | create uid tok now =>
    show s.nextId ≤ (createSession uid tok now s).1.nextId
    unfold createSession
    by_cases hg : s.rows.any (fun r => decide (r.sessionToken = tok)) = true
    · rw [hg]
      exact Nat.le_refl _
    · rw [Bool.not_eq_true] at hg
      rw [hg]
      simp only [Bool.false_eq_true, if_false, if_true]
      exact Nat.le_succ s.nextId
  | validate tok now =>
    show s.nextId ≤ (validateSession tok now s).1.nextId
    unfold validateSession
    cases hga : getActiveSession tok s with
    | none => exact Nat.le_refl _
    | some r =>
      cases hexp : isSessionExpired r.lastActivityAt now with
      | false => simp [hexp]
      | true => simp [hexp, expireByToken]
  | updateActivity tok now => exact Nat.le_refl _
  | terminate tok now => exact Nat.le_refl _

theorem applyOps_idClosedB (l : List Op) (s : State) (i : Nat)
    (hlt : i < s.nextId) (h : IdClosed i s) : IdClosed i (applyOps l s) := by
  induction l generalizing s with
  | nil => exact h
  | cons op t ih =>
    exact ih (applyOp op s)
      (Nat.lt_of_lt_of_le hlt (applyOp_nextId_leB op s))
      (applyOp_idClosedB op s i hlt h)

end B

namespace A

theorem transitions_map (g : Row → Row) (rows : List Row)
    (hg : ∀ r ∈ rows, (g r).id = r.id ∧ ((g r).status = r.status ∨
      (r.status = .active ∧ (g r).status = .revoked))) :
    ∀ r2 ∈ rows.map g, ∃ r ∈ rows, r2.id = r.id ∧ (r2.status = r.status ∨
      (r.status = .active ∧ r2.status = .revoked)) := by
  intro r2 hr2
  simp only [List.mem_map] at hr2
  obtain ⟨r0, hr0, rfl⟩ := hr2
  exact ⟨r0, hr0, (hg r0 hr0).1, (hg r0 hr0).2⟩

theorem applyOp_transitions (op : Op) (s : State) :
    ∀ r2 ∈ (applyOp op s).rows,
      (∃ r ∈ s.rows, r2.id = r.id ∧ (r2.status = r.status ∨
        (r.status = .active ∧ r2.status = .revoked))) ∨
      (r2.status = .active ∧ r2.revokedAt = none) := by
  cases op with
  | create uid sid now rf =>
    show ∀ r2 ∈ (createUserSession uid sid now rf s).1.rows, _
    unfold createUserSession
    by_cases hg : s.rows.any (fun r => decide (r.sessionId = sid)) = true
    · rw [hg]
      intro r2 hr2
      exact Or.inl ⟨r2, hr2, rfl, Or.inl rfl⟩
    · rw [Bool.not_eq_true] at hg
      rw [hg]
      have hnew : ∀ r2 ∈ (insertSession uid sid now s).rows,
          r2 ∈ s.rows ∨ r2 = ⟨s.nextId, uid, sid, .active, now, now, none⟩ := by
        intro r2 hr2
        have hr2m : r2 ∈ s.rows ++ [⟨s.nextId, uid, sid, .active, now, now, none⟩] := hr2
        rcases List.mem_append.mp hr2m with h1 | h1
        · exact Or.inl h1
        · exact Or.inr (List.mem_singleton.mp h1)
      cases rf with
      | true =>
        simp only [if_true]
        intro r2 hr2
        rcases hnew r2 hr2 with h1 | h1
        · exact Or.inl ⟨r2, h1, rfl, Or.inl rfl⟩
        · rw [h1]
          exact Or.inr ⟨rfl, rfl⟩
      | false =>
        simp only [Bool.false_eq_true, if_false, if_true]
        intro r2 hr2
        have hr2m : r2 ∈ (insertSession uid sid now s).rows.map (fun r =>
            if decide (r.userId = uid ∧ r.sessionId ≠ sid ∧ r.status = Status.active) then
              { r with status := .revoked, revokedAt := some now }
            else r) := hr2
        simp only [List.mem_map] at hr2m
        obtain ⟨r0, hr0, rfl⟩ := hr2m
        rcases hnew r0 hr0 with h1 | h1
        · refine Or.inl ?_
          cases hd : decide (r0.userId = uid ∧ r0.sessionId ≠ sid ∧
              r0.status = Status.active) with
          | true =>
            have hp := of_decide_eq_true hd
            exact ⟨r0, h1, by simp [hd], Or.inr ⟨hp.2.2, by simp [hd]⟩⟩
          | false =>
            exact ⟨r0, h1, by simp [hd], Or.inl (by simp [hd])⟩
        · rw [h1]
          refine Or.inr ?_
          constructor <;> simp
  | updateActivity sid now =>
    intro r2 hr2
    refine Or.inl (transitions_map _ s.rows ?_ r2 hr2)
    intro r _
    cases hd : decide (r.sessionId = sid ∧ r.status = Status.active) with
    | true => exact ⟨by simp [hd], Or.inl (by simp [hd])⟩
    | false => exact ⟨by simp [hd], Or.inl (by simp [hd])⟩
  | revoke uid sid now =>
    intro r2 hr2
    refine Or.inl (transitions_map _ s.rows ?_ r2 hr2)
    intro r _
    cases hd : decide (r.userId = uid ∧ r.sessionId = sid) with
    | true =>
      refine ⟨by simp [hd], ?_⟩
      cases hst : r.status with
      | active => exact Or.inr ⟨rfl, by simp [hd]⟩
      | revoked => exact Or.inl (by simp [hd, hst])
    | false => exact ⟨by simp [hd], Or.inl (by simp [hd])⟩
  | revokeAll uid now =>
    intro r2 hr2
    refine Or.inl (transitions_map _ s.rows ?_ r2 hr2)
    intro r _
    cases hd : decide (r.userId = uid ∧ r.status = Status.active) with
    | true =>
      have hp := of_decide_eq_true hd
      exact ⟨by simp [hd], Or.inr ⟨hp.2, by simp [hd]⟩⟩
    | false => exact ⟨by simp [hd], Or.inl (by simp [hd])⟩
  | cleanup cutoff =>
    intro r2 hr2
    exact Or.inl ⟨r2, List.mem_of_mem_filter hr2, rfl, Or.inl rfl⟩

end A

namespace B

theorem transitions_mapB (g : Row → Row) (rows : List Row)
    (hg : ∀ r ∈ rows, (g r).id = r.id ∧ ((g r).status = r.status ∨
      (r.status = .active ∧ ((g r).status = .terminated ∨ (g r).status = .expired)))) :
    ∀ r2 ∈ rows.map g, ∃ r ∈ rows, r2.id = r.id ∧ (r2.status = r.status ∨
      (r.status = .active ∧ (r2.status = .terminated ∨ r2.status = .expired))) := by
  intro r2 hr2
  simp only [List.mem_map] at hr2
  obtain ⟨r0, hr0, rfl⟩ := hr2
  exact ⟨r0, hr0, (hg r0 hr0).1, (hg r0 hr0).2⟩

theorem applyOp_transitionsB (op : Op) (s : State) (hnd : TokensNodup s) :
    ∀ r2 ∈ (applyOp op s).rows,
      (∃ r ∈ s.rows, r2.id = r.id ∧ (r2.status = r.status ∨
        (r.status = .active ∧ (r2.status = .terminated ∨ r2.status = .expired)))) ∨
      (r2.status = .active ∧ r2.terminatedAt = none) := by
  cases op with
  | create uid tok now =>
    show ∀ r2 ∈ (createSession uid tok now s).1.rows, _
    unfold createSession
    by_cases hg : s.rows.any (fun r => decide (r.sessionToken = tok)) = true
    · rw [hg]
      intro r2 hr2
      exact Or.inl ⟨r2, hr2, rfl, Or.inl rfl⟩
    · rw [Bool.not_eq_true] at hg
      rw [hg]
      simp only [Bool.false_eq_true, if_false, if_true]
      intro r2 hr2
      have hr2m : r2 ∈ terminate_previous_sessions uid tok now s.rows ++
          [⟨s.nextId, uid, tok, .active, now, none⟩] := hr2
      rcases List.mem_append.mp hr2m with h1 | h1
      · refine Or.inl ?_
        refine transitions_mapB _ s.rows ?_ r2 h1
        intro r _
        cases hd : decide (r.userId = uid ∧ r.sessionToken ≠ tok ∧
            r.status = Status.active) with
        | true =>
          have hp := of_decide_eq_true hd
          exact ⟨by simp [hd], Or.inr ⟨hp.2.2, Or.inl (by simp [hd])⟩⟩
        | false => exact ⟨by simp [hd], Or.inl (by simp [hd])⟩
      · rcases List.mem_singleton.mp h1 with rfl
        exact Or.inr ⟨rfl, rfl⟩
  | validate tok now =>
    show ∀ r2 ∈ (validateSession tok now s).1.rows, _
    unfold validateSession
    cases hga : getActiveSession tok s with
    | none =>
      intro r2 hr2
      exact Or.inl ⟨r2, hr2, rfl, Or.inl rfl⟩
    | some r =>
      obtain ⟨hA, htok, hst, hmem⟩ := getActiveSession_some_elim tok s r hga
      cases hexp : isSessionExpired r.lastActivityAt now with
      | false =>
        simp only [hexp, Bool.false_eq_true, if_false]
        intro r2 hr2
        exact Or.inl ⟨r2, hr2, rfl, Or.inl rfl⟩
      | true =>
        simp only [hexp, if_true]
        intro r2 hr2
        refine Or.inl ?_
        refine transitions_mapB _ s.rows ?_ r2 hr2
        intro r0 hr0
        cases hd : decide (r0.sessionToken = tok) with
        | true =>
          have hp := of_decide_eq_true hd
          have hr0r : r0 = r :=
            List.inj_on_of_nodup_map hnd hr0 hmem (hp.trans htok.symm)
          exact ⟨by simp [hd], Or.inr ⟨hr0r ▸ hst, Or.inr (by simp [hd])⟩⟩
        | false => exact ⟨by simp [hd], Or.inl (by simp [hd])⟩
  | updateActivity tok now =>
    intro r2 hr2
    refine Or.inl (transitions_mapB _ s.rows ?_ r2 hr2)
    intro r _
    cases hd : decide (r.sessionToken = tok ∧ r.status = Status.active) with
    | true => exact ⟨by simp [hd], Or.inl (by simp [hd])⟩
    | false => exact ⟨by simp [hd], Or.inl (by simp [hd])⟩
  | terminate tok now =>
    intro r2 hr2
    refine Or.inl (transitions_mapB _ s.rows ?_ r2 hr2)
    intro r _
    cases hd : decide (r.sessionToken = tok ∧ r.status = Status.active) with
    | true =>
      have hp := of_decide_eq_true hd
      exact ⟨by simp [hd], Or.inr ⟨hp.2, Or.inl (by simp [hd])⟩⟩
    | false => exact ⟨by simp [hd], Or.inl (by simp [hd])⟩

end B

/-- Claim C6: monotonic status.  First two conjuncts: in both mechanisms, a
session row whose status has left `'active'` never returns to `'active'`
under any sequence of operations (create, validate with lazy expiry,
terminate/revoke, activity update, batch cleanup) — rows are keyed by their
generated id, and the freshness counter bound reflects that the store never
reissues a primary key.  Last two conjuncts: each single operation either
leaves a row's status unchanged or moves it from `'active'` to a closed
status (`'revoked'` for mechanism A; `'terminated'`/`'expired'` for
mechanism B, whose stored tokens are unique), and any other row it produces
is a freshly inserted `'active'` row. -/
theorem claim_C6 :
    (∀ (l : List A.Op) (s : A.State) (i : Nat), i < s.nextId → A.IdClosed i s →
      A.IdClosed i (A.applyOps l s)) ∧
    (∀ (l : List B.Op) (s : B.State) (i : Nat), i < s.nextId → B.IdClosed i s →
      B.IdClosed i (B.applyOps l s)) ∧
    (∀ (op : A.Op) (s : A.State), ∀ r2 ∈ (A.applyOp op s).rows,
      (∃ r ∈ s.rows, r2.id = r.id ∧ (r2.status = r.status ∨
        (r.status = .active ∧ r2.status = .revoked))) ∨
      (r2.status = .active ∧ r2.revokedAt = none)) ∧
    (∀ (op : B.Op) (s : B.State), B.TokensNodup s → ∀ r2 ∈ (B.applyOp op s).rows,
      (∃ r ∈ s.rows, r2.id = r.id ∧ (r2.status = r.status ∨
        (r.status = .active ∧ (r2.status = .terminated ∨ r2.status = .expired)))) ∨
      (r2.status = .active ∧ r2.terminatedAt = none)) :=
  ⟨fun l s i hlt h => A.applyOps_idClosed l s i hlt h,
   fun l s i hlt h => B.applyOps_idClosedB l s i hlt h,
   fun op s => A.applyOp_transitions op s,
   fun op s hnd => B.applyOp_transitionsB op s hnd⟩

/-- Claim C6 witness: the four statements evaluated on concrete stores and
operation sequences: a revoked mechanism-A row stays closed through a create,
an activity update and a cleanup; a terminated mechanism-B row stays closed
through a create, a lazily-expiring validate and a terminate; and the
single-step transition shapes at a concrete revoke and terminate. -/
theorem claim_C6_witness :
    (0 < sampleA2.nextId ∧ A.IdClosed 0 sampleA2 ∧
      A.IdClosed 0 (A.applyOps
        [.create 0 5 9 false, .updateActivity 5 10, .cleanup 1000] sampleA2)) ∧
    (0 < (B.terminateSession 1 50 sampleB).1.nextId ∧
      B.IdClosed 0 (B.terminateSession 1 50 sampleB).1 ∧
      B.IdClosed 0 (B.applyOps
        [.create 0 2 60, .validate 2 1400000, .terminate 2 1400001]
        (B.terminateSession 1 50 sampleB).1)) ∧
    (∀ r2 ∈ (A.applyOp (.revoke 0 1 5) sampleA).rows,
      (∃ r ∈ sampleA.rows, r2.id = r.id ∧ (r2.status = r.status ∨
        (r.status = .active ∧ r2.status = .revoked))) ∨
      (r2.status = .active ∧ r2.revokedAt = none)) ∧
    (B.TokensNodup sampleB ∧
     ∀ r2 ∈ (B.applyOp (.terminate 1 50) sampleB).rows,
      (∃ r ∈ sampleB.rows, r2.id = r.id ∧ (r2.status = r.status ∨
        (r.status = .active ∧ (r2.status = .terminated ∨ r2.status = .expired)))) ∨
      (r2.status = .active ∧ r2.terminatedAt = none)) :=
  ⟨⟨by decide, by decide,
    claim_C6.1 [.create 0 5 9 false, .updateActivity 5 10, .cleanup 1000]
      sampleA2 0 (by decide) (by decide)⟩,
   ⟨by decide, by decide,
    claim_C6.2.1 [.create 0 2 60, .validate 2 1400000, .terminate 2 1400001]
      (B.terminateSession 1 50 sampleB).1 0 (by decide) (by decide)⟩,
   claim_C6.2.2.1 (.revoke 0 1 5) sampleA,
   ⟨by decide, claim_C6.2.2.2 (.terminate 1 50) sampleB (by decide)⟩⟩

/-! ## Claim C2: concurrent create calls -/

namespace A

theorem validateSession_eq_match (uid sid : Nat) (s : State) :
    validateSession uid sid false s = (match matchesFor uid sid s with
      | [r] => if r.status = .revoked then ⟨false, .revoked⟩ else ⟨true, .valid⟩
      | _ => ⟨false, .not_found⟩) := rfl

theorem validate_false_after_revoke_others (uid sid sidw : Nat) (now : Int)
    (s : State) (hne : sid ≠ sidw) :
    (validateSession uid sid false
      (revoke_other_sessions uid sidw now s).1).isValid = false := by
  have hall : ∀ r ∈ matchesFor uid sid (revoke_other_sessions uid sidw now s).1,
      r.status = Status.revoked := by
    intro r hr
    obtain ⟨hmem, hcond⟩ := List.mem_filter.mp hr
    have hp := of_decide_eq_true hcond
    have hmem2 : r ∈ s.rows.map (fun r0 =>
        if decide (r0.userId = uid ∧ r0.sessionId ≠ sidw ∧ r0.status = Status.active) then
          { r0 with status := .revoked, revokedAt := some now }
        else r0) := hmem
    simp only [List.mem_map] at hmem2
    obtain ⟨r0, hr0, rfl⟩ := hmem2
    cases hd : decide (r0.userId = uid ∧ r0.sessionId ≠ sidw ∧
        r0.status = Status.active) with
    | true => simp [hd]
    | false =>
      simp only [hd, Bool.false_eq_true, if_false] at hp ⊢
      have hna := of_decide_eq_false hd
      cases hst : r0.status with
      | revoked => rfl
      | active =>
        exact absurd ⟨hp.1, fun hc => hne (hp.2.symm.trans hc), hst⟩ hna
  rw [validateSession_eq_match]
  rcases hm : matchesFor uid sid (revoke_other_sessions uid sidw now s).1 with
    _ | ⟨r, _ | ⟨r2, t⟩⟩
  · rfl
  · have := hall r (by rw [hm]; exact List.mem_singleton_self r)
    simp [this]
  · rfl

end A

/-- Claim C2 counterexample: the INSERT and the `revoke_other_sessions`
UPDATE of `createUserSession` are two separate store statements, and under
the interleaving insert-A, insert-B, revoke-A, revoke-B (a schedule in the
interleaving set) the two racing calls for user 0 leave BOTH sessions
revoked: neither token 1 nor token 2 validates afterwards, refuting
"exactly one of the two tokens validates successfully". -/
theorem claim_C2_counterexample :
    [(false, A.CallStep.ins), (true, A.CallStep.ins),
     (false, A.CallStep.rev), (true, A.CallStep.rev)] ∈ A.schedules ∧
    (A.validateSession 0 1 false (A.execSchedule 0 (1, 10) (2, 11)
      [(false, .ins), (true, .ins), (false, .rev), (true, .rev)]
      ⟨[], 0⟩)).reason = .revoked ∧
    (A.validateSession 0 2 false (A.execSchedule 0 (1, 10) (2, 11)
      [(false, .ins), (true, .ins), (false, .rev), (true, .rev)]
      ⟨[], 0⟩)).reason = .revoked ∧
    (A.validateSession 0 1 false (A.execSchedule 0 (1, 10) (2, 11)
      [(false, .ins), (true, .ins), (false, .rev), (true, .rev)]
      ⟨[], 0⟩)).isValid = false ∧
    (A.validateSession 0 2 false (A.execSchedule 0 (1, 10) (2, 11)
      [(false, .ins), (true, .ins), (false, .rev), (true, .rev)]
      ⟨[], 0⟩)).isValid = false := by
  decide

/-- Claim C2 (amended): insert-and-revoke is not one atomic store unit — it
is an INSERT followed by a separate `revoke_other_sessions` UPDATE, and a
fully interleaved race can end with zero valid tokens (see the
counterexample).  What does hold: in every interleaving of the two calls'
store statements that respects each call's internal order, the two racing
creates never both leave their session validating — at most one of the two
tokens is accepted afterwards. -/
theorem claim_C2 (s : A.State) (uid : Nat) (a b : Nat × Int)
    (hne : a.1 ≠ b.1) :
    ∀ sched ∈ A.schedules,
      ¬((A.validateSession uid a.1 false
            (A.execSchedule uid a b sched s)).isValid = true ∧
        (A.validateSession uid b.1 false
            (A.execSchedule uid a b sched s)).isValid = true) := by
  intro sched hs
  fin_cases hs <;>
    simp only [A.execSchedule, A.execStep, Bool.false_eq_true, if_false, if_true] <;>
    rintro ⟨h1, h2⟩
  · rw [A.validate_false_after_revoke_others uid a.1 b.1 b.2 _ hne] at h1
    cases h1
  · rw [A.validate_false_after_revoke_others uid a.1 b.1 b.2 _ hne] at h1
    cases h1
  · rw [A.validate_false_after_revoke_others uid b.1 a.1 a.2 _ (Ne.symm hne)] at h2
    cases h2
  · rw [A.validate_false_after_revoke_others uid a.1 b.1 b.2 _ hne] at h1
    cases h1
  · rw [A.validate_false_after_revoke_others uid b.1 a.1 a.2 _ (Ne.symm hne)] at h2
    cases h2
  · rw [A.validate_false_after_revoke_others uid b.1 a.1 a.2 _ (Ne.symm hne)] at h2
    cases h2

/-- Claim C2 witness: the amended statement at two concrete racing creates
(session ids 1 and 2) from the empty store. -/
theorem claim_C2_witness :
    ((1, (10 : Int)).1 ≠ ((2, (11 : Int))).1 ∧
     ∀ sched ∈ A.schedules,
      ¬((A.validateSession 0 (1, (10 : Int)).1 false
            (A.execSchedule 0 (1, 10) (2, 11) sched ⟨[], 0⟩)).isValid = true ∧
        (A.validateSession 0 ((2, (11 : Int))).1 false
            (A.execSchedule 0 (1, 10) (2, 11) sched ⟨[], 0⟩)).isValid = true)) :=
  ⟨by decide, claim_C2 ⟨[], 0⟩ 0 (1, 10) (2, 11) (by decide)⟩

/-! ## Claim C1: sequential single authority -/

namespace A

theorem createUserSession_rows_eq (uid sid : Nat) (now : Int) (s : State)
    (hfresh : ∀ r ∈ s.rows, r.sessionId ≠ sid) :
    (createUserSession uid sid now false s).1 =
      ⟨s.rows.map (fun r =>
          if decide (r.userId = uid ∧ r.sessionId ≠ sid ∧ r.status = Status.active) then
            { r with status := .revoked, revokedAt := some now }
          else r) ++ [⟨s.nextId, uid, sid, .active, now, now, none⟩],
        s.nextId + 1⟩ := by
  have hg : s.rows.any (fun r => decide (r.sessionId = sid)) = false := by
    rw [List.any_eq_false]
    intro r hr
    simpa using hfresh r hr
  unfold createUserSession
  rw [hg]
  simp only [Bool.false_eq_true, if_false, if_true]
  show (revoke_other_sessions uid sid now (insertSession uid sid now s)).1 = _
  unfold revoke_other_sessions insertSession
  simp only [List.map_append, List.map_cons, List.map_nil]
  congr 2
  simp

theorem matchesFor_create_self (uid sid : Nat) (now : Int) (s : State)
    (hfresh : ∀ r ∈ s.rows, r.sessionId ≠ sid) :
    matchesFor uid sid (createUserSession uid sid now false s).1 =
      [⟨s.nextId, uid, sid, .active, now, now, none⟩] := by
  rw [createUserSession_rows_eq uid sid now s hfresh]
  unfold matchesFor
  rw [List.filter_append]
  have h1 : (s.rows.map (fun r =>
      if decide (r.userId = uid ∧ r.sessionId ≠ sid ∧ r.status = Status.active) then
        { r with status := .revoked, revokedAt := some now }
      else r)).filter
        (fun r => decide (r.userId = uid ∧ r.sessionId = sid)) = [] := by
    rw [filter_map_comm]
    · have h2 : s.rows.filter (fun r => decide (r.userId = uid ∧ r.sessionId = sid))
          = [] := by
        rw [List.filter_eq_nil_iff]
        intro r hr
        simp only [decide_eq_true_eq]
        rintro ⟨-, h2⟩
        exact hfresh r hr h2
      rw [h2, List.map_nil]
    · intro a _
      cases hd : decide (a.userId = uid ∧ a.sessionId ≠ sid ∧
          a.status = Status.active) with
      | true => simp [hd]
      | false => simp [hd]
  rw [h1]
  simp

theorem matchesFor_create_other (uid sid sid2 : Nat) (now : Int) (s : State)
    (hfresh : ∀ r ∈ s.rows, r.sessionId ≠ sid) (hne : sid2 ≠ sid) :
    matchesFor uid sid2 (createUserSession uid sid now false s).1 =
      (matchesFor uid sid2 s).map (fun r =>
        if decide (r.userId = uid ∧ r.sessionId ≠ sid ∧ r.status = Status.active) then
          { r with status := .revoked, revokedAt := some now }
        else r) := by
  rw [createUserSession_rows_eq uid sid now s hfresh]
  unfold matchesFor
  rw [List.filter_append]
  have h1 : List.filter (fun r => decide (r.userId = uid ∧ r.sessionId = sid2))
      [(⟨s.nextId, uid, sid, .active, now, now, none⟩ : Row)] = [] := by
    simp [Ne.symm hne]
  rw [h1, List.append_nil]
  rw [filter_map_comm]
  intro a _
  cases hd : decide (a.userId = uid ∧ a.sessionId ≠ sid ∧
      a.status = Status.active) with
  | true => simp [hd]
  | false => simp [hd]

theorem countActive_create (uid sid : Nat) (now : Int) (s : State)
    (hfresh : ∀ r ∈ s.rows, r.sessionId ≠ sid) :
    countActive uid (createUserSession uid sid now false s).1 = 1 := by
  rw [createUserSession_rows_eq uid sid now s hfresh]
  unfold countActive
  rw [List.filter_append]
  have h1 : (s.rows.map (fun r =>
      if decide (r.userId = uid ∧ r.sessionId ≠ sid ∧ r.status = Status.active) then
        { r with status := .revoked, revokedAt := some now }
      else r)).filter
        (fun r => decide (r.userId = uid ∧ r.status = Status.active)) = [] := by
    rw [List.filter_eq_nil_iff]
    intro r2 hr2
    simp only [List.mem_map] at hr2
    obtain ⟨r0, hr0, rfl⟩ := hr2
    cases hd : decide (r0.userId = uid ∧ r0.sessionId ≠ sid ∧
        r0.status = Status.active) with
    | true => simp [hd]
    | false =>
      simp only [hd, Bool.false_eq_true, if_false, decide_eq_true_eq]
      rintro ⟨h2, h3⟩
      exact of_decide_eq_false hd ⟨h2, hfresh r0 hr0, h3⟩
  rw [h1]
  simp

theorem matchesFor_single_elim (uid sid : Nat) (s : State) (r : Row)
    (h : matchesFor uid sid s = [r]) :
    r.userId = uid ∧ r.sessionId = sid ∧ r ∈ s.rows := by
  have hmem : r ∈ matchesFor uid sid s := by
    rw [h]; exact List.mem_singleton_self r
  obtain ⟨hm, hc⟩ := List.mem_filter.mp hmem
  have hp := of_decide_eq_true hc
  exact ⟨hp.1, hp.2, hm⟩

theorem validate_of_single_active (uid sid : Nat) (s : State) (row : Row)
    (h : matchesFor uid sid s = [row]) (hst : row.status = .active) :
    validateSession uid sid false s = ⟨true, .valid⟩ := by
  rw [validateSession_eq_match, h]
  simp [hst]

theorem validate_of_single_revoked (uid sid : Nat) (s : State) (row : Row)
    (h : matchesFor uid sid s = [row]) (hst : row.status = .revoked) :
    validateSession uid sid false s = ⟨false, .revoked⟩ := by
  rw [validateSession_eq_match, h]
  simp [hst]

theorem runCreates_append (uid : Nat) (l1 l2 : List (Nat × Int)) (s : State) :
    runCreates uid (l1 ++ l2) s = runCreates uid l2 (runCreates uid l1 s) :=
  List.foldl_append _ _ l1 l2

theorem create_preserves_ids (uid sid : Nat) (now : Int) (s : State) (t : Nat)
    (hfresh : ∀ r ∈ s.rows, r.sessionId ≠ sid)
    (hts : ∀ r ∈ s.rows, r.sessionId ≠ t) (htz : t ≠ sid) :
    ∀ r ∈ (createUserSession uid sid now false s).1.rows, r.sessionId ≠ t := by
  rw [createUserSession_rows_eq uid sid now s hfresh]
  intro r hr
  have hr2 : r ∈ s.rows.map (fun r0 =>
      if decide (r0.userId = uid ∧ r0.sessionId ≠ sid ∧ r0.status = Status.active) then
        { r0 with status := .revoked, revokedAt := some now }
      else r0) ++ [⟨s.nextId, uid, sid, .active, now, now, none⟩] := hr
  rcases List.mem_append.mp hr2 with h1 | h1
  · simp only [List.mem_map] at h1
    obtain ⟨r0, hr0, rfl⟩ := h1
    cases hd : decide (r0.userId = uid ∧ r0.sessionId ≠ sid ∧
        r0.status = Status.active) with
    | true => simpa [hd] using hts r0 hr0
    | false => simpa [hd] using hts r0 hr0
  · rcases List.mem_singleton.mp h1 with rfl
    simpa using Ne.symm htz

theorem runCreates_master (uid : Nat) (ys : List (Nat × Int)) :
    ∀ (z : Nat × Int) (s : State),
    (((ys ++ [z]).map Prod.fst).Nodup) →
    (∀ p ∈ ys ++ [z], ∀ r ∈ s.rows, r.sessionId ≠ p.1) →
    (∃ row : Row, matchesFor uid z.1 (runCreates uid (ys ++ [z]) s) = [row] ∧
      row.status = .active) ∧
    (∀ p ∈ ys, ∃ row : Row,
      matchesFor uid p.1 (runCreates uid (ys ++ [z]) s) = [row] ∧
      row.status = .revoked) ∧
    countActive uid (runCreates uid (ys ++ [z]) s) = 1 ∧
    (∀ t : Nat, (∀ r ∈ s.rows, r.sessionId ≠ t) → t ∉ (ys ++ [z]).map Prod.fst →
      ∀ r ∈ (runCreates uid (ys ++ [z]) s).rows, r.sessionId ≠ t) := by
  induction ys using List.reverseRecOn with
  | nil =>
    intro z s _ hfresh
    have hfz : ∀ r ∈ s.rows, r.sessionId ≠ z.1 :=
      hfresh z (List.mem_singleton_self z)
    have hrun : runCreates uid ([] ++ [z]) s = (createUserSession uid z.1 z.2 false s).1 := rfl
    rw [hrun]
    refine ⟨⟨⟨s.nextId, uid, z.1, .active, z.2, z.2, none⟩,
      matchesFor_create_self uid z.1 z.2 s hfz, rfl⟩, ?_, ?_, ?_⟩
    · intro p hp
      cases hp
    · exact countActive_create uid z.1 z.2 s hfz
    · intro t hts htz
      have htz2 : t ≠ z.1 := by
        intro hc
        exact htz (by simp [hc])
      exact create_preserves_ids uid z.1 z.2 s t hfz hts htz2
  | append_singleton ys' y ih =>
    intro z s hnd hfresh
    have hassoc : (ys' ++ [y]) ++ [z] = ys' ++ [y] ++ [z] := rfl
    have hndmid : ((ys' ++ [y]).map Prod.fst).Nodup := by
      rw [List.map_append] at hnd
      exact (List.nodup_append.mp hnd).1
    have hzout : z.1 ∉ (ys' ++ [y]).map Prod.fst := by
      rw [List.map_append] at hnd
      obtain ⟨-, -, hdisj⟩ := List.nodup_append.mp hnd
      intro hc
      exact hdisj hc (by simp)
    have hfreshmid : ∀ p ∈ ys' ++ [y], ∀ r ∈ s.rows, r.sessionId ≠ p.1 :=
      fun p hp => hfresh p (List.mem_append_left _ hp)
    obtain ⟨⟨rowy, hry, hrya⟩, hprev, hcnt, hids⟩ := ih y s hndmid hfreshmid
    have hrun : runCreates uid ((ys' ++ [y]) ++ [z]) s
        = (createUserSession uid z.1 z.2 false (runCreates uid (ys' ++ [y]) s)).1 := by
      rw [runCreates_append]
      rfl
    have hzs : ∀ r ∈ s.rows, r.sessionId ≠ z.1 :=
      hfresh z (List.mem_append_right _ (List.mem_singleton_self z))
    have hzfresh : ∀ r ∈ (runCreates uid (ys' ++ [y]) s).rows, r.sessionId ≠ z.1 :=
      hids z.1 hzs hzout
    rw [hrun]
    refine ⟨⟨⟨(runCreates uid (ys' ++ [y]) s).nextId, uid, z.1, .active, z.2, z.2, none⟩,
      matchesFor_create_self uid z.1 z.2 _ hzfresh, rfl⟩, ?_, ?_, ?_⟩
    · intro p hp
      have hpz : p.1 ≠ z.1 := by
        intro hc
        exact hzout (hc ▸ List.mem_map_of_mem Prod.fst hp)
      rcases List.mem_append.mp hp with hp1 | hp1
      · obtain ⟨rowp, hrp, hrpr⟩ := hprev p hp1
        refine ⟨rowp, ?_, hrpr⟩
        rw [matchesFor_create_other uid z.1 p.1 z.2 _ hzfresh hpz, hrp]
        simp [hrpr]
      · rcases List.mem_singleton.mp hp1 with rfl
        obtain ⟨hyu, hysid, -⟩ := matchesFor_single_elim uid p.1 _ rowy hry
        refine ⟨{ rowy with status := .revoked, revokedAt := some z.2 }, ?_, rfl⟩
        rw [matchesFor_create_other uid z.1 p.1 z.2 _ hzfresh hpz, hry]
        have hcond : decide (rowy.userId = uid ∧ rowy.sessionId ≠ z.1 ∧
            rowy.status = Status.active) = true :=
          decide_eq_true ⟨hyu, fun hc => hpz (hysid.symm.trans hc), hrya⟩
        simp only [List.map_cons, List.map_nil, hcond, if_true]
    · exact countActive_create uid z.1 z.2 _ hzfresh
    · intro t hts htz
      have htz2 : t ≠ z.1 := by
        intro hc
        exact htz (by simp [hc])
      have htmid : t ∉ (ys' ++ [y]).map Prod.fst := by
        intro hc
        exact htz (by rw [List.map_append]; exact List.mem_append_left _ hc)
      exact create_preserves_ids uid z.1 z.2 _ t hzfresh (hids t hts htmid) htz2

end A

/-- Claim C1: sequential single authority.  Against a non-failing store, a
sequence of non-overlapping `createUserSession` calls for one user — with
fresh, pairwise-distinct session ids — leaves exactly the last call's session
validating (`reason: 'valid'`); every earlier session id is rejected with
`reason: 'revoked'`; and after every prefix of the sequence the user has
exactly one `'active'` row. -/
theorem claim_C1 (uid : Nat) (l : List (Nat × Int)) (s : A.State)
    (hne : l ≠ []) (hnd : (l.map Prod.fst).Nodup)
    (hfresh : ∀ p ∈ l, ∀ r ∈ s.rows, r.sessionId ≠ p.1) :
    A.validateSession uid (l.getLast hne).1 false (A.runCreates uid l s)
      = ⟨true, .valid⟩ ∧
    (∀ p ∈ l.dropLast,
      A.validateSession uid p.1 false (A.runCreates uid l s)
        = ⟨false, .revoked⟩) ∧
    (∀ k : Nat, 1 ≤ k → k ≤ l.length →
      A.countActive uid (A.runCreates uid (l.take k) s) = 1) := by
  have hdecomp : l.dropLast ++ [l.getLast hne] = l :=
    List.dropLast_append_getLast hne
  have hM := A.runCreates_master uid l.dropLast (l.getLast hne) s
    (by rw [hdecomp]; exact hnd) (by rw [hdecomp]; exact hfresh)
  rw [hdecomp] at hM
  obtain ⟨⟨rowz, hz, hza⟩, hprev, -, -⟩ := hM
  refine ⟨A.validate_of_single_active uid _ _ rowz hz hza, ?_, ?_⟩
  · intro p hp
    obtain ⟨rowp, hrp, hrpr⟩ := hprev p hp
    exact A.validate_of_single_revoked uid _ _ rowp hrp hrpr
  · intro k hk1 hk2
    have hkne : l.take k ≠ [] := by
      intro hc
      have hlen := congrArg List.length hc
      simp only [List.length_take, List.length_nil] at hlen
      omega
    have hdec2 : (l.take k).dropLast ++ [(l.take k).getLast hkne] = l.take k :=
      List.dropLast_append_getLast hkne
    have hnd2 : ((l.take k).map Prod.fst).Nodup := by
      rw [List.map_take]
      exact hnd.sublist (List.take_sublist k _)
    have hfresh2 : ∀ p ∈ l.take k, ∀ r ∈ s.rows, r.sessionId ≠ p.1 :=
      fun p hp => hfresh p ((List.take_sublist k l).subset hp)
    have hM2 := A.runCreates_master uid (l.take k).dropLast
      ((l.take k).getLast hkne) s
      (by rw [hdec2]; exact hnd2) (by rw [hdec2]; exact hfresh2)
    rw [hdec2] at hM2
    exact hM2.2.2.1

/-- Claim C1 witness: two sequential creates (session ids 1 then 2) for user
0 from the empty store: session 2 validates, session 1 is revoked, and each
prefix leaves exactly one active row. -/
theorem claim_C1_witness :
    (sampleSeq ≠ [] ∧ (sampleSeq.map Prod.fst).Nodup ∧
     (∀ p ∈ sampleSeq, ∀ r ∈ emptyA.rows, r.sessionId ≠ p.1)) ∧
    (A.validateSession 0 (sampleSeq.getLast (by decide)).1 false
        (A.runCreates 0 sampleSeq emptyA) = ⟨true, .valid⟩ ∧
     (∀ p ∈ sampleSeq.dropLast,
        A.validateSession 0 p.1 false (A.runCreates 0 sampleSeq emptyA)
          = ⟨false, .revoked⟩) ∧
     (∀ k : Nat, 1 ≤ k → k ≤ sampleSeq.length →
        A.countActive 0 (A.runCreates 0 (sampleSeq.take k) emptyA) = 1)) :=
  ⟨⟨by decide, by decide, by decide⟩,
   claim_C1 0 sampleSeq emptyA (by decide) (by decide) (by decide)⟩

end SessionAuth
